import Mathlib

/-!
Verification of the rag-eval repository's evaluation and generation
orchestration pipeline against its natural-language specification.

The Python sources are shallowly embedded: strings are modelled as
`List Char` (ASCII fragment of Python `str`), JSON values as an inductive
`Json` with numbers as exact rationals, Python dicts as insertion-ordered
association lists, and Python runtime exceptions as `Except PyErr`.
-/

set_option maxRecDepth 4096

abbrev Chars := List Char

/-- The ASCII whitespace set used by Python `str.strip()` and by the `\s`
character class of the `re` module (space, tab, newline, carriage return,
vertical tab, form feed).  Non-ASCII whitespace is outside the model. -/
def pyWs (c : Char) : Bool :=
  c == ' ' || c == '\t' || c == '\n' || c == '\r' || c == '\x0b' || c == '\x0c'

/-- Python `str.strip()` on the character-list representation. -/
def pyStripChars (cs : Chars) : Chars :=
  ((cs.dropWhile pyWs).reverse.dropWhile pyWs).reverse

/-- Python `str.strip()`. -/
def pyStrip (s : String) : String :=
  ⟨pyStripChars s.data⟩

/-- Python `str.lower()` (ASCII fragment). -/
def pyLower (s : String) : String :=
  ⟨s.data.map Char.toLower⟩

/-- Python substring containment `needle in hay` on character lists. -/
def pySubstrChars (needle : Chars) : Chars → Bool
  | [] => needle.isEmpty
  | c :: rest => needle.isPrefixOf (c :: rest) || pySubstrChars needle rest

/-- Python substring containment `needle in hay` for strings. -/
def pyContains (needle hay : String) : Bool :=
  pySubstrChars needle.data hay.data

/-- First index at which `needle` occurs in `hay` (the semantics of
scanning start positions left to right, as `re.search` does for a pattern
with no alternatives). -/
def findSub (needle : Chars) : Chars → Option Nat
  | [] => if needle.isEmpty then some 0 else none
  | c :: rest =>
    if needle.isPrefixOf (c :: rest) then some 0
    else (findSub needle rest).map (· + 1)

/-- All start indices (ascending) at which `needle` occurs in the suffix
of the scanned text, offset by `i`. -/
def occsAux (needle : Chars) : Chars → Nat → List Nat
  | [], i => if needle.isEmpty then [i] else []
  | c :: rest, i =>
    (if needle.isPrefixOf (c :: rest) then [i] else []) ++ occsAux needle rest (i + 1)

/-- All start indices (ascending) at which `needle` occurs in `hay`. -/
def occurrences (needle hay : Chars) : List Nat :=
  occsAux needle hay 0

/-- First `some` produced by `f` over the list, in order. -/
def firstSome (f : α → Option β) : List α → Option β
  | [] => none
  | a :: as =>
    match f a with
    | some b => some b
    | none => firstSome f as

/-- Python `str.replace(pat, rep)` for a non-empty pattern `p :: ps`:
non-overlapping replacement scanning left to right.  Fuelled by the text
length (the fuel never runs out when started at the text length, since
each step consumes at least one character). -/
def pyReplaceAux (p : Char) (ps rep : Chars) : Nat → Chars → Chars
  | _, [] => []
  | 0, s => s
  | Nat.succ fuel, c :: rest =>
    if (p :: ps).isPrefixOf (c :: rest) then
      rep ++ pyReplaceAux p ps rep fuel (rest.drop ps.length)
    else
      c :: pyReplaceAux p ps rep fuel rest

/-- Python `str.replace(pat, rep)`.  For the empty pattern Python inserts
`rep` before every character and at the end. -/
def pyReplaceChars (s pat rep : Chars) : Chars :=
  match pat with
  | [] => rep ++ (s.map (fun c => c :: rep)).flatten
  | p :: ps => pyReplaceAux p ps rep s.length s

/-- Python `str.replace` for strings. -/
def pyReplace (s pat rep : String) : String :=
  ⟨pyReplaceChars s.data pat.data rep.data⟩

/-- Python slice `s[:n]` (first `n` characters). -/
def pyTake (n : Nat) (s : String) : String :=
  ⟨s.data.take n⟩

/-! ## RAG service (src/services/rag_service.py) -/

/-- One message in a LangChain `ConversationBufferMemory`. -/
inductive ChatMessage where
  | user (text : String)
  | ai (text : String)
  deriving DecidableEq, Repr

/-- The conversation memory built by `create_rag_chain`
(rag_service.py lines 12-20): a fresh `ConversationBufferMemory`, seeded
with one synthetic user/assistant exchange exactly when `chat_history_str`
is truthy and strips to a truthy string. -/
def create_rag_chain_memory (chat_history_str : String) : List ChatMessage :=
  if chat_history_str ≠ "" && pyStrip chat_history_str ≠ "" then
    [ChatMessage.user "Previous conversation context", ChatMessage.ai chat_history_str]
  else
    []

/-- The value a chain invocation produces when it does not raise: the
Python response dict, whose "answer" key may be absent (`none`) and whose
"source_documents" key may be absent (`none`, read back with
`response.get("source_documents", [])`). -/
structure ChainResponse where
  answer : Option String
  source_documents : Option (List String)
  deriving DecidableEq, Repr

/-- Result dict of `generate_rag_response`. -/
structure RagResult where
  answer : String
  source_documents : List String
  deriving DecidableEq, Repr

/-- `generate_rag_response` (rag_service.py lines 43-55).  The chain is an
external collaborator, modelled as a function that either returns a
response dict or raises an exception with the given message.  Reading the
missing "answer" key raises `KeyError("answer")` inside the `try`, whose
`str` is the quoted key. -/
def generate_rag_response (chain : String → Except String ChainResponse)
    (question : String) : RagResult :=
  match chain question with
  | .error e =>
    { answer := "Error generating response: " ++ e, source_documents := [] }
  | .ok r =>
    match r.answer with
    | some a => { answer := a, source_documents := r.source_documents.getD [] }
    | none =>
      { answer := "Error generating response: " ++ "\x27answer\x27", source_documents := [] }

/-! ## Model resolution (src/services/llm_service.py and the evaluator
construction in src/services/evaluation_service.py) -/

/-- Which output-token-limit keyword argument a resolved chat client is
constructed with. -/
inductive TokenParam where
  | noLimit
  | maxTokens (n : Nat)
  | maxCompletionTokens (n : Nat)
  deriving DecidableEq, Repr

/-- The sampling-relevant part of a constructed chat client. -/
structure ResolvedClient where
  model_name : String
  temperature : ℚ
  tokenParam : TokenParam
  deriving DecidableEq, Repr

/-- The fixed-temperature marker list, identical in llm_service.py
(lines 36, 68) and evaluation_service.py (lines 145, 174). -/
def models_with_fixed_temperature : List String :=
  ["gpt-5", "o1-preview", "o1-mini", "o1"]

/-- `any(model in model_name.lower() for model in models_with_fixed_temperature)`. -/
def is_fixed_temp_model (model_name : String) : Bool :=
  models_with_fixed_temperature.any (fun m => pyContains m (pyLower model_name))

/-- `get_llm_provider`, "OpenAI" branch (llm_service.py lines 34-51):
generation role.  Neither arm passes any output-token-limit argument. -/
def get_llm_provider_openai (model_name : String) (temperature : ℚ) : ResolvedClient :=
  if is_fixed_temp_model model_name then
    { model_name := model_name, temperature := 1, tokenParam := .noLimit }
  else
    { model_name := model_name, temperature := temperature, tokenParam := .noLimit }

/-- `get_llm_provider`, "DeepInfra" branch (llm_service.py lines 64-83):
same fixed-temperature handling as the OpenAI branch, no token limit. -/
def get_llm_provider_deepinfra (model_name : String) (temperature : ℚ) : ResolvedClient :=
  if is_fixed_temp_model model_name then
    { model_name := model_name, temperature := 1, tokenParam := .noLimit }
  else
    { model_name := model_name, temperature := temperature, tokenParam := .noLimit }

/-- `get_llm_provider`, "Custom Models" branch (llm_service.py lines 12-33):
the pinned temperature is decided by the stored `fixed_temperature` flag of
the selected session model entry, not by model-name inspection.  The
arguments are the effective name/temperature after the session-state
lookups. -/
def get_llm_provider_custom (model_name : String) (custom_temperature : ℚ)
    (fixed_temperature : Bool) : ResolvedClient :=
  { model_name := model_name,
    temperature := if fixed_temperature then 1 else custom_temperature,
    tokenParam := .noLimit }

/-- Evaluator construction, "Claude" branch (evaluation_service.py
lines 115-126). -/
def evaluator_client_claude (eval_model : String) : ResolvedClient :=
  { model_name := eval_model, temperature := 1/10, tokenParam := .maxTokens 4096 }

/-- Evaluator construction, "OpenAI" branch (evaluation_service.py
lines 168-198): judging role. -/
def evaluator_client_openai (eval_model : String) : ResolvedClient :=
  if is_fixed_temp_model eval_model then
    { model_name := eval_model, temperature := 1, tokenParam := .maxCompletionTokens 4096 }
  else
    { model_name := eval_model, temperature := 1/10, tokenParam := .maxTokens 4096 }

/-- Evaluator construction, "Custom Models" branch (evaluation_service.py
lines 127-167): judging role.  `model_temperature` is the selected model's
configured temperature (default 0.1). -/
def evaluator_client_custom (eval_model : String) (model_temperature : ℚ) : ResolvedClient :=
  if is_fixed_temp_model eval_model then
    { model_name := eval_model, temperature := 1, tokenParam := .maxCompletionTokens 4096 }
  else
    { model_name := eval_model, temperature := model_temperature, tokenParam := .maxTokens 4096 }

/-! ## Rubric and custom metrics (src/config/constants.py,
src/ui/custom_metrics_tab.py, src/ui/run_eval_tab.py) -/

/-- Display name and description of one rubric metric. -/
structure MetricDef where
  name : String
  description : String
  deriving DecidableEq, Repr

/-- `DEFAULT_METRICS` (constants.py lines 93-126), insertion order
preserved. -/
def DEFAULT_METRICS : List (String × MetricDef) :=
  [("answer_relevancy",
    { name := "Answer Relevancy",
      description := "Determines whether an LLM output is able to address the given input in an informative and concise manner. The response should directly answer the question without unnecessary information." }),
   ("task_completion",
    { name := "Task Completion",
      description := "Determines whether an LLM agent is able to complete the task it was set out to do. Evaluate if all aspects of the requested task have been addressed." }),
   ("correctness",
    { name := "Correctness",
      description := "Determines whether an LLM output is factually correct based on the provided ground truth. Compare the response against the ground truth for accuracy." }),
   ("hallucination",
    { name := "Hallucination",
      description := "Determines whether an LLM output contains fake or made-up information not supported by the context or ground truth. Check for fabricated facts or unsupported claims." }),
   ("contextual_relevancy",
    { name := "Contextual Relevancy",
      description := "Determines whether the retriever in a RAG-based LLM system is able to extract the most relevant information for your LLM as context. Evaluate if the retrieved chunks are pertinent to the question." }),
   ("responsible_metrics",
    { name := "Responsible Metrics",
      description := "Includes metrics such as bias and toxicity, which determines whether an LLM output contains harmful, offensive, or biased content." }),
   ("task_specific",
    { name := "Task-Specific Metrics",
      description := "Includes metrics such as summarization quality, format adherence, or other custom criteria depending on the specific use-case." }),
   ("engagement",
    { name := "Engagement / User Satisfaction",
      description := "Evaluates the usefulness, engaging nature, and overall user satisfaction potential of the response. Consider clarity, helpfulness, user-friendliness, and how well it maintains conversation flow with the chat history." })]

/-- One user-registered custom metric as stored in session state. -/
structure CustomMetric where
  id : String
  name : String
  description : String
  deriving DecidableEq, Repr

/-- Metric-id derivation (custom_metrics_tab.py line 32):
`metric_name.lower().replace(" ", "_").replace("-", "_")`. -/
def derive_metric_id (metric_name : String) : String :=
  pyReplace (pyReplace (pyLower metric_name) " " "_") "-" "_"

/-- The "Add Metric" submit handler (custom_metrics_tab.py lines 30-47):
non-truthy name or description is an input error; otherwise the derived id
is checked against the ids of the previously registered custom metrics
only, and on success the new metric is appended. -/
def add_custom_metric (custom_metrics : List CustomMetric)
    (metric_name metric_description : String) : Except String (List CustomMetric) :=
  if metric_name = "" ∨ metric_description = "" then
    .error "Please provide both metric name and description"
  else if (custom_metrics.map (·.id)).contains (derive_metric_id metric_name) then
    .error "A metric with similar name already exists"
  else
    .ok (custom_metrics ++
      [{ id := derive_metric_id metric_name, name := metric_name,
         description := metric_description }])

/-- Python dict assignment `d[k] = v` on an insertion-ordered association
list: overwrite in place when the key exists, append otherwise. -/
def assocSet (kvs : List (String × α)) (k : String) (v : α) : List (String × α) :=
  match kvs with
  | [] => [(k, v)]
  | (k0, v0) :: rest =>
    if k0 = k then (k0, v) :: rest else (k0, v0) :: assocSet rest k v

/-- Rubric assembly in the run handler (run_eval_tab.py lines 105-111):
`all_metrics = DEFAULT_METRICS.copy()` followed by
`all_metrics[custom_metric[id]] = {...}` for each custom metric. -/
def build_all_metrics (custom_metrics : List CustomMetric) : List (String × MetricDef) :=
  custom_metrics.foldl
    (fun acc c => assocSet acc c.id { name := c.name, description := c.description })
    DEFAULT_METRICS

/-! ## Kernel-computable rational arithmetic

`Rat.add`, `Rat.mul` and `Rat.inv` do not reduce definitionally in this
toolchain, while `Rat.divInt` does; the pipeline therefore uses the
following `divInt`-based operations, proved equal to the standard ones
below. -/

def ratAdd (a b : ℚ) : ℚ := Rat.divInt (a.num * b.den + b.num * a.den) (a.den * b.den)

def ratMul (a b : ℚ) : ℚ := Rat.divInt (a.num * b.num) (a.den * b.den)

def ratDiv (a b : ℚ) : ℚ := Rat.divInt (a.num * b.den) (a.den * b.num)

def ratNeg (a : ℚ) : ℚ := Rat.divInt (-a.num) a.den

def ratPow10 : ℤ → ℚ
  | .ofNat n => Rat.divInt ((10 : ℤ) ^ n) 1
  | .negSucc n => Rat.divInt 1 ((10 : ℤ) ^ (n + 1))

def ratSum (l : List ℚ) : ℚ := l.foldl ratAdd 0

/-! ## JSON values and `json.loads` (model of the Python stdlib decoder) -/

/-- A parsed JSON value.  Numbers are modelled as exact rationals (Python
decodes integer literals exactly and decimal literals as floats; binary
floating-point rounding and the NaN/Infinity extensions are outside the
model).  Objects are insertion-ordered association lists with
last-write-wins key assignment, matching Python dict construction. -/
inductive Json where
  | null
  | bool (b : Bool)
  | num (q : ℚ)
  | str (s : String)
  | arr (elems : List Json)
  | obj (entries : List (String × Json))

/-- Key lookup on a JSON object (`none` off objects). -/
def Json.objGet (d : Json) (k : String) : Option Json :=
  match d with
  | .obj kvs => List.lookup k kvs
  | _ => none

/-- Key list of a JSON object. -/
def Json.objKeys (d : Json) : List String :=
  match d with
  | .obj kvs => kvs.map Prod.fst
  | _ => []

/-- The whitespace characters the JSON decoder skips between tokens. -/
def jsonWs (c : Char) : Bool :=
  c == ' ' || c == '\t' || c == '\n' || c == '\r'

def skipJsonWs (s : Chars) : Chars :=
  s.dropWhile jsonWs

def hexVal (c : Char) : Option Nat :=
  if '0' ≤ c ∧ c ≤ '9' then some (c.toNat - '0'.toNat)
  else if 'a' ≤ c ∧ c ≤ 'f' then some (c.toNat - 'a'.toNat + 10)
  else if 'A' ≤ c ∧ c ≤ 'F' then some (c.toNat - 'A'.toNat + 10)
  else none

/-- Body of a JSON string literal after the opening quote: the standard
escapes; unescaped control characters are rejected as the strict-mode
Python decoder does.  `\u` escapes are decoded for scalar values
(surrogate pairs are outside the model). -/
def parseStringBody : Chars → Chars → Option (String × Chars)
  | [], _ => none
  | '"' :: rest, acc => some (⟨acc.reverse⟩, rest)
  | '\\' :: esc, acc =>
    match esc with
    | '"' :: rest => parseStringBody rest ('"' :: acc)
    | '\\' :: rest => parseStringBody rest ('\\' :: acc)
    | '/' :: rest => parseStringBody rest ('/' :: acc)
    | 'b' :: rest => parseStringBody rest ('\x08' :: acc)
    | 'f' :: rest => parseStringBody rest ('\x0c' :: acc)
    | 'n' :: rest => parseStringBody rest ('\n' :: acc)
    | 'r' :: rest => parseStringBody rest ('\r' :: acc)
    | 't' :: rest => parseStringBody rest ('\t' :: acc)
    | 'u' :: h1 :: h2 :: h3 :: h4 :: rest =>
      match hexVal h1, hexVal h2, hexVal h3, hexVal h4 with
      | some a, some b, some c, some d =>
        let n := ((a * 16 + b) * 16 + c) * 16 + d
        if n < 0xd800 ∨ (0xe000 ≤ n ∧ n < 0x110000) then
          parseStringBody rest (Char.ofNat n :: acc)
        else none
      | _, _, _, _ => none
    | _ => none
  | c :: rest, acc => if c.toNat < 32 then none else parseStringBody rest (c :: acc)

def splitDigits (s : Chars) : Chars × Chars :=
  (s.takeWhile Char.isDigit, s.dropWhile Char.isDigit)

def digitsToNat (ds : Chars) : Nat :=
  ds.foldl (fun n c => n * 10 + (c.toNat - '0'.toNat)) 0

/-- Optional fraction part of a JSON number, as an exact rational. -/
def parseFrac (s : Chars) : Option (ℚ × Chars) :=
  match s with
  | '.' :: rest =>
    let (fds, r2) := splitDigits rest
    if fds.isEmpty then none
    else some (Rat.divInt (digitsToNat fds : ℤ) ((10 : ℤ) ^ fds.length), r2)
  | _ => some (0, s)

/-- Optional exponent part of a JSON number. -/
def parseExp (s : Chars) : Option (ℤ × Chars) :=
  match s with
  | 'e' :: rest | 'E' :: rest =>
    let sgnSplit : ℤ × Chars :=
      match rest with
      | '+' :: r => (1, r)
      | '-' :: r => (-1, r)
      | _ => (1, rest)
    let (eds, r2) := splitDigits sgnSplit.2
    if eds.isEmpty then none else some (sgnSplit.1 * (digitsToNat eds : ℤ), r2)
  | _ => some (0, s)

/-- A JSON number literal: optional minus, integer part without leading
zeros, optional fraction and exponent; decoded exactly into ℚ. -/
def parseNumber (s0 : Chars) : Option (ℚ × Chars) :=
  let negSplit : Bool × Chars :=
    match s0 with
    | '-' :: rest => (true, rest)
    | _ => (false, s0)
  let (ids, s2) := splitDigits negSplit.2
  if ids.isEmpty then none
  else if ids.length > 1 && (ids.head? == some '0') then none
  else
    (parseFrac s2).bind (fun fr =>
      (parseExp fr.2).map (fun ex =>
        let mag : ℚ := ratMul (ratAdd (digitsToNat ids : ℚ) fr.1) (ratPow10 ex.1)
        (if negSplit.1 then ratNeg mag else mag, ex.2)))

/-- Fuelled recursive descent over the grammar accepted by `json.loads`:
the three entries parse one value, the tail of an array, and the tail of
an object (the recursion is packaged as one structural recursion on fuel
so that every component reduces definitionally). -/
def jsonParsers : Nat →
    ((Chars → Option (Json × Chars)) ×
     (Chars → List Json → Option (List Json × Chars)) ×
     (Chars → List (String × Json) → Option (List (String × Json) × Chars)))
  | 0 => (fun _ => none, fun _ _ => none, fun _ _ => none)
  | Nat.succ fuel =>
    let pv := (jsonParsers fuel).1
    let pe := (jsonParsers fuel).2.1
    let pm := (jsonParsers fuel).2.2
    (fun s =>
      match skipJsonWs s with
      | 'n' :: 'u' :: 'l' :: 'l' :: rest => some (.null, rest)
      | 't' :: 'r' :: 'u' :: 'e' :: rest => some (.bool true, rest)
      | 'f' :: 'a' :: 'l' :: 's' :: 'e' :: rest => some (.bool false, rest)
      | '"' :: rest => (parseStringBody rest []).map (fun p => (.str p.1, p.2))
      | '[' :: rest =>
        (match skipJsonWs rest with
         | ']' :: r2 => some (.arr [], r2)
         | _ => (pe rest []).map (fun p => (.arr p.1, p.2)))
      | '\x7b' :: rest =>
        (match skipJsonWs rest with
         | '\x7d' :: r2 => some (.obj [], r2)
         | _ => (pm rest []).map (fun p => (.obj p.1, p.2)))
      | rest => (parseNumber rest).map (fun p => (.num p.1, p.2)),
     fun s acc =>
      (pv s).bind (fun p =>
        match skipJsonWs p.2 with
        | ',' :: r2 => pe r2 (p.1 :: acc)
        | ']' :: r2 => some ((p.1 :: acc).reverse, r2)
        | _ => none),
     fun s acc =>
      match skipJsonWs s with
      | '"' :: r0 =>
        (parseStringBody r0 []).bind (fun kp =>
          match skipJsonWs kp.2 with
          | ':' :: r2 =>
            (pv r2).bind (fun vp =>
              match skipJsonWs vp.2 with
              | ',' :: r4 => pm r4 (assocSet acc kp.1 vp.1)
              | '\x7d' :: r4 => some (assocSet acc kp.1 vp.1, r4)
              | _ => none)
          | _ => none)
      | _ => none)

/-- One JSON value. -/
def parseVal (fuel : Nat) (s : Chars) : Option (Json × Chars) :=
  (jsonParsers fuel).1 s

/-- Python `json.loads`: decode one document, requiring only whitespace
after it; `none` models `json.JSONDecodeError`. -/
def json_loads (s : String) : Option Json :=
  match parseVal (2 * s.data.length + 2) s.data with
  | some (v, rest) => if skipJsonWs rest = [] then some v else none
  | none => none

/-! ## Structured-output recovery (evaluation_service.py lines 223-266) -/

/-- Backtracking positions for the greedy `\s*` before the mandatory
newline of the first fence pattern: candidate newline positions inside the
leading whitespace run, longest whitespace consumption first.  (A newline
at position `k` with only whitespace before it is exactly a way to split
`\s*` then `\n`.) -/
def newlinePositionsDesc (rest : Chars) : List Nat :=
  ((List.range ((rest.takeWhile pyWs).length)).filter
    (fun k => rest[k]? == some '\n')).reverse

/-- `re.search` of the raw pattern  ```json\s*\n(.*?)\n```  with DOTALL
(line 226): scan start positions left to right for the literal opening,
backtrack the greedy whitespace run to a newline, and take the lazy
capture up to the first following closing fence. -/
def matchFenceJsonWs (t : Chars) : Option Chars :=
  firstSome (fun i =>
      let rest := t.drop (i + 7)
      firstSome (fun k =>
          (findSub ("\n```".data) (rest.drop (k + 1))).map
            (fun j => (rest.drop (k + 1)).take j))
        (newlinePositionsDesc rest))
    (occurrences ("```json".data) t)

/-- `re.search` of  ```json\n(.*?)```  with DOTALL (line 227): lazy
capture up to the first closing fence. -/
def matchFenceJsonTight (t : Chars) : Option Chars :=
  firstSome (fun i =>
      let rest := t.drop (i + 8)
      (findSub ("```".data) rest).map (fun j => rest.take j))
    (occurrences ("```json\n".data) t)

/-- `re.search` of  ```\n(.*?)\n```  with DOTALL (line 228). -/
def matchFenceGeneric (t : Chars) : Option Chars :=
  firstSome (fun i =>
      let rest := t.drop (i + 4)
      (findSub ("\n```".data) rest).map (fun j => rest.take j))
    (occurrences ("```\n".data) t)

/-- Last index of `c` in `t`. -/
def lastIdxOf (c : Char) (t : Chars) : Option Nat :=
  (findSub [c] t.reverse).map (fun j => t.length - 1 - j)

/-- `re.search` of the greedy  \{.*\}  with DOTALL (line 229): the span
from the first opening brace to the last closing brace when the latter
comes later; the code consumes `group(0)`, the whole match. -/
def matchBraceSpan (t : Chars) : Option Chars :=
  match findSub ['\x7b'] t, lastIdxOf '\x7d' t with
  | some i, some j => if i < j then some ((t.drop i).take (j - i + 1)) else none
  | _, _ => none

/-- The four regex attempts of `json_patterns` (lines 225-230), each
yielding the text handed to `json.loads` when it matches. -/
def json_patterns (t : Chars) : List (Option Chars) :=
  [matchFenceJsonWs t, matchFenceJsonTight t, matchFenceGeneric t, matchBraceSpan t]

/-- Lines 232-252: try each pattern in order; a pattern that does not
match, or whose stripped capture fails to decode, falls through to the
next one. -/
def extract_by_patterns (evaluation : String) : Option Json :=
  firstSome
    (fun c? => c?.bind (fun c => json_loads (pyStrip ⟨c⟩)))
    (json_patterns evaluation.data)

/-- The synthesized soft-failure dict (lines 259-266). -/
def default_evaluation_dict (evaluation : String) : Json :=
  .obj [("overall_score", .num 5),
        ("metrics", .obj []),
        ("summary", .str "Failed to parse complete evaluation"),
        ("recommendations", .str ("Raw response (first 500 chars): " ++ pyTake 500 evaluation))]

/-- Lines 254-266: the fallback taken when the `evaluation_dict is None`
re-check of line 255 fires: decode the entire stripped reply, else
synthesize the soft-failure default.  A whole-reply decode yielding JSON
null flows downstream as Python None — there is no second re-check. -/
def whole_reply_or_default (evaluation : String) : Json :=
  match json_loads (pyStrip evaluation) with
  | some d => d
  | none => default_evaluation_dict evaluation

/-- Lines 232-266: the evaluation dict fed to schema completion.  The
loop breaks at the first pattern whose capture decodes; a capture
decoding to JSON null leaves the Python variable None, so the
`evaluation_dict is None` re-check at line 255 discards it (the remaining
patterns were already skipped by the break) and recovery falls through to
the whole-reply decode and the soft-failure default. -/
def extract_evaluation_dict (evaluation : String) : Json :=
  match extract_by_patterns evaluation with
  | some Json.null => whole_reply_or_default evaluation
  | some d => d
  | none => whole_reply_or_default evaluation

/-! ## Schema completion with Python dynamic semantics
(evaluation_service.py lines 268-301) -/

/-- A Python exception raised by the completion steps. -/
inductive PyErr where
  | keyError (key : String)
  | typeError (msg : String)
  | attributeError (msg : String)
  deriving DecidableEq, Repr

/-- Python `str(e)` of a caught exception: for `KeyError` the repr of the
key, otherwise the message text. -/
def PyErr.text : PyErr → String
  | .keyError k => "\x27" ++ k ++ "\x27"
  | .typeError m => m
  | .attributeError m => m

/-- `d.get(k, default)`: `AttributeError` on anything but a dict. -/
def pyDictGet (d : Json) (k : String) (dflt : Json) : Except PyErr Json :=
  match d with
  | .obj kvs => .ok ((List.lookup k kvs).getD dflt)
  | _ => .error (.attributeError "object has no attribute get")

/-- Python `k in container` for a string `k`: key containment for dicts,
element equality for lists, substring test for strings, `TypeError`
otherwise. -/
def pyInOp (k : String) (container : Json) : Except PyErr Bool :=
  match container with
  | .obj kvs => .ok (kvs.any (fun kv => kv.1 == k))
  | .arr es => .ok (es.any (fun e => match e with | .str s => s == k | _ => false))
  | .str s => .ok (pyContains k s)
  | _ => .error (.typeError "argument is not iterable")

/-- `d[k] = v` for a string key. -/
def pySetItem (d : Json) (k : String) (v : Json) : Except PyErr Json :=
  match d with
  | .obj kvs => .ok (.obj (assocSet kvs k v))
  | .arr _ => .error (.typeError "list indices must be integers or slices, not str")
  | _ => .error (.typeError "object does not support item assignment")

/-- `evaluation_dict["metrics"][metric_key] = v`: subscript lookup of the
"metrics" slot (raising `KeyError` when absent) followed by item
assignment on whatever it holds. -/
def pySetMetricItem (d : Json) (k : String) (v : Json) : Except PyErr Json :=
  match d with
  | .obj kvs =>
    match List.lookup "metrics" kvs with
    | none => .error (.keyError "metrics")
    | some m =>
      (pySetItem m k v).map (fun m2 => .obj (assocSet kvs "metrics" m2))
  | _ => .error (.typeError "object is not subscriptable")

/-- The neutral default entry inserted by schema completion
(lines 271-274). -/
def default_metric_entry : Json :=
  .obj [("score", .num 5), ("explanation", .str "Metric not evaluated or parsing failed")]

/-- The body of the completion loop (lines 270-274) for one rubric id. -/
def ensure_metric_step (d : Json) (k : String) : Except PyErr Json := do
  let g ← pyDictGet d "metrics" (.obj [])
  let b ← pyInOp k g
  if b then pure d else pySetMetricItem d k default_metric_entry

/-- Lines 269-274: for each rubric id absent from the parsed metrics
container (Python containment semantics), insert the neutral default. -/
def ensure_metrics (metric_keys : List String) (d : Json) : Except PyErr Json :=
  metric_keys.foldlM ensure_metric_step d

/-- `.values()`: `AttributeError` on anything but a dict. -/
def pyDictValues (d : Json) : Except PyErr (List Json) :=
  match d with
  | .obj kvs => .ok (kvs.map Prod.snd)
  | _ => .error (.attributeError "object has no attribute values")

/-- `sum(scores)`: Python adds numbers and bools (False = 0, True = 1);
any other element raises `TypeError`. -/
def pySum (scores : List Json) : Except PyErr ℚ :=
  scores.foldlM
    (fun acc v =>
      match v with
      | .num q => .ok (ratAdd acc q)
      | .bool b => .ok (ratAdd acc (if b then 1 else 0))
      | _ => .error (.typeError "unsupported operand type(s) for +"))
    0

/-- Lines 276-280: when `overall_score` is absent, store the mean of the
present metric scores (each read with `m.get("score", 5)`), or 5 when
there are no scores. -/
def ensure_overall (d : Json) : Except PyErr Json := do
  let b ← pyInOp "overall_score" d
  if b then pure d
  else do
    let g ← pyDictGet d "metrics" (.obj [])
    let vals ← pyDictValues g
    let scores ← vals.mapM (fun m => pyDictGet m "score" (.num 5))
    let total ← pySum scores
    pySetItem d "overall_score"
      (if scores.isEmpty then .num 5 else .num (ratDiv total scores.length))

/-- Lines 282-286: default text for an absent field. -/
def ensure_field (d : Json) (k v : String) : Except PyErr Json := do
  let b ← pyInOp k d
  if b then pure d else pySetItem d k (.str v)

/-- Lines 223-288: extraction followed by schema completion, inside the
inner `try` whose failures form the hard parse-failure path. -/
def process_evaluation (metric_keys : List String) (evaluation : String) :
    Except PyErr Json := do
  let d0 := extract_evaluation_dict evaluation
  let d1 ← ensure_metrics metric_keys d0
  let d2 ← ensure_overall d1
  let d3 ← ensure_field d2 "summary" "Evaluation completed with parsing issues"
  ensure_field d3 "recommendations" "Review the raw response for complete details"

/-- The zero-scored metrics mapping shared by both failure results. -/
def zero_metrics (metric_keys : List String) (explanation : String) : Json :=
  .obj (metric_keys.map (fun k =>
    (k, Json.obj [("score", .num 0), ("explanation", .str explanation)])))

/-- Lines 290-301: the result returned when recovery/completion itself
raises. -/
def parse_error_result (metric_keys : List String) (e : PyErr) : Json :=
  .obj [("overall_score", .num 0),
        ("metrics", zero_metrics metric_keys ("Parse error: " ++ e.text)),
        ("summary", .str ("Error parsing evaluation response: " ++ e.text)),
        ("recommendations", .str "Check the logs for the raw response")]

/-- Lines 205-221: classification of a judge-invocation failure by
substring inspection of the lowered error text; the classified error is
re-raised and lands in the outer handler. -/
def classify_api_error (eval_provider errMsg : String) : String :=
  let low := pyLower errMsg
  let provider_name := if eval_provider = "Claude" then "Claude" else "OpenAI"
  if pyContains "connection" low then
    "Failed to connect to " ++ provider_name ++
      " API. Please check:\n1. Your API key is valid\n2. Your network connection\n3. " ++
      provider_name ++ " API service status"
  else if pyContains "authentication" low || pyContains "unauthorized" low then
    "Invalid " ++ provider_name ++ " API key. Please check your API key."
  else if pyContains "rate" low then
    "Rate limit exceeded. Please wait a moment and try again."
  else errMsg

/-- Lines 303-329: the outer handler converts any raised error into a
zero-scored result. -/
def evaluation_error_result (metric_keys : List String) (errText : String) : Json :=
  .obj [("overall_score", .num 0),
        ("metrics", zero_metrics metric_keys ("Evaluation error: " ++ errText)),
        ("summary", .str ("Error during evaluation: " ++ errText)),
        ("recommendations", .str "")]

/-- Outcome of the judge invocation `evaluator.invoke(prompt)`: the reply
content, or the text of the exception the call raised. -/
inductive InvokeOutcome where
  | reply (content : String)
  | raised (errMsg : String)

/-- `evaluate_response` (evaluation_service.py lines 108-329) as a
function of the rubric, the provider selector, and the judge-invocation
outcome (the network call is the external collaborator).  A raised
invocation error is classified (lines 205-221) and caught by the outer
handler (lines 303-329); a reply goes through structured-output recovery
and schema completion, whose own failures are caught at lines 290-301. -/
def evaluate_response (metrics : List (String × MetricDef)) (eval_provider : String)
    (outcome : InvokeOutcome) : Json :=
  match outcome with
  | .raised errMsg =>
    evaluation_error_result (metrics.map Prod.fst) (classify_api_error eval_provider errMsg)
  | .reply content =>
    match process_evaluation (metrics.map Prod.fst) content with
    | .ok d => d
    | .error e => parse_error_result (metrics.map Prod.fst) e

/-! ## Derived accessors and spec-side definitions -/

/-- The metric entry a result reports for id `k`. -/
def result_metric_entry (r : Json) (k : String) : Option Json :=
  (r.objGet "metrics").bind (fun m => m.objGet k)

/-- The score a result reports for metric id `k`. -/
def result_metric_score (r : Json) (k : String) : Option Json :=
  (result_metric_entry r k).bind (fun e => e.objGet "score")

/-- The explanation a result reports for metric id `k`. -/
def result_metric_explanation (r : Json) (k : String) : Option Json :=
  (result_metric_entry r k).bind (fun e => e.objGet "explanation")

/-- Pure characterization of what the completion loop does to an object
metrics container: insert the neutral default for every rubric id not yet
present, left to right. -/
def completeKeys : List String → List (String × Json) → List (String × Json)
  | [], m => m
  | k :: ks, m =>
    completeKeys ks
      (if (List.lookup k m).isSome then m else assocSet m k default_metric_entry)

/-- A metric entry on which the mean computation of lines 278-280 cannot
raise: a dict whose "score", when present, is a number. -/
def entry_score_ok (v : Json) : Bool :=
  match v with
  | .obj kvs =>
    match List.lookup "score" kvs with
    | some (.num _) => true
    | some _ => false
    | none => true
  | _ => false

/-- The score of one metric entry as read by `m.get("score", 5)`. -/
def score_value_json (v : Json) : Json :=
  match v with
  | .obj kvs => (List.lookup "score" kvs).getD (.num 5)
  | _ => .num 5

/-- The numeric score of one metric entry, reading 5 when absent. -/
def score_rat (v : Json) : ℚ :=
  match v with
  | .obj kvs =>
    match List.lookup "score" kvs with
    | some (.num q) => q
    | _ => 5
  | _ => 5

/-- Modelled from the spec: the unweighted arithmetic mean of all metric
scores of the completed metrics mapping (a missing score reads as 5), or 5
when no scores exist at all. -/
def spec_mean_score (m : List (String × Json)) : ℚ :=
  if m.isEmpty then 5
  else ratDiv (ratSum (m.map (fun kv => score_rat kv.2))) m.length

/-- Modelled from the spec: strategy 1, a fenced block explicitly tagged
as JSON (either raw-regex reading of a tagged fence), decoded after
stripping. -/
def spec_tagged_fence_json (evaluation : String) : Option Json :=
  ((matchFenceJsonWs evaluation.data).bind (fun c => json_loads (pyStrip ⟨c⟩))).orElse
    (fun _ => (matchFenceJsonTight evaluation.data).bind (fun c => json_loads (pyStrip ⟨c⟩)))

/-- Modelled from the spec: strategy 2, a fenced block with no language
tag. -/
def spec_untagged_fence_json (evaluation : String) : Option Json :=
  (matchFenceGeneric evaluation.data).bind (fun c => json_loads (pyStrip ⟨c⟩))

/-- Modelled from the spec: strategy 3, the largest (greedy, first opening
brace to last closing brace) brace-delimited span. -/
def spec_brace_span_json (evaluation : String) : Option Json :=
  (matchBraceSpan evaluation.data).bind (fun c => json_loads (pyStrip ⟨c⟩))

/-- Modelled from the spec: strategy 4, the entire reply decoded as
JSON. -/
def spec_whole_reply_json (evaluation : String) : Option Json :=
  json_loads (pyStrip evaluation)

/-- Modelled from the spec: ordered first-success-wins recovery over the
four strategies, falling back to the synthesized soft-failure dict. -/
def spec_ordered_recovery (evaluation : String) : Json :=
  match
    ((spec_tagged_fence_json evaluation).orElse
      (fun _ => (spec_untagged_fence_json evaluation).orElse
        (fun _ => (spec_brace_span_json evaluation).orElse
          (fun _ => spec_whole_reply_json evaluation)))) with
  | some d => d
  | none => default_evaluation_dict evaluation

/-- Modelled from the spec, amended for the null re-check of line 255:
ordered first-success recovery over the tagged-fence, untagged-fence and
brace-span strategies, except that a strategy winning with JSON null
aborts the cascade and defers to the whole-reply decode and then the
soft-failure default; a whole-reply null passes through downstream. -/
def spec_ordered_recovery_null (evaluation : String) : Json :=
  match
    ((spec_tagged_fence_json evaluation).orElse
      (fun _ => (spec_untagged_fence_json evaluation).orElse
        (fun _ => spec_brace_span_json evaluation))) with
  | some Json.null =>
    (match spec_whole_reply_json evaluation with
     | some d => d
     | none => default_evaluation_dict evaluation)
  | some d => d
  | none =>
    (match spec_whole_reply_json evaluation with
     | some d => d
     | none => default_evaluation_dict evaluation)

/-! ## Helper lemmas -/

theorem ratAdd_eq (a b : ℚ) : ratAdd a b = a + b := by
  have ha : ((a.den : ℚ)) ≠ 0 := by
    exact_mod_cast a.pos.ne'
  have hb : ((b.den : ℚ)) ≠ 0 := by
    exact_mod_cast b.pos.ne'
  rw [ratAdd, Rat.divInt_eq_div]
  conv_rhs => rw [← Rat.num_div_den a, ← Rat.num_div_den b]
  rw [div_add_div _ _ ha hb]
  push_cast
  ring_nf

theorem ratMul_eq (a b : ℚ) : ratMul a b = a * b := by
  rw [ratMul, Rat.divInt_eq_div]
  conv_rhs => rw [← Rat.num_div_den a, ← Rat.num_div_den b]
  rw [div_mul_div_comm]
  push_cast
  ring_nf

theorem ratNeg_eq (a : ℚ) : ratNeg a = -a := by
  rw [ratNeg, Rat.divInt_eq_div]
  conv_rhs => rw [← Rat.num_div_den a]
  push_cast
  rw [neg_div]

theorem ratDiv_eq (a b : ℚ) : ratDiv a b = a / b := by
  by_cases hb : b = 0
  · subst hb
    rw [ratDiv, div_zero]
    have h0 : (0 : ℚ).num = 0 := rfl
    rw [h0, mul_zero, Rat.divInt_zero]
  · have hbn : ((b.num : ℚ)) ≠ 0 := by
      exact_mod_cast Rat.num_ne_zero.mpr hb
    rw [ratDiv, Rat.divInt_eq_div]
    conv_rhs => rw [← Rat.num_div_den a, ← Rat.num_div_den b]
    rw [div_eq_mul_inv ((a.num : ℚ) / (a.den : ℚ)), inv_div, div_mul_div_comm]
    push_cast
    ring_nf

theorem ratPow10_eq (e : ℤ) : ratPow10 e = (10 : ℚ) ^ e := by
  cases e with
  | ofNat n =>
    rw [ratPow10, Rat.divInt_one]
    push_cast
    rw [Int.ofNat_eq_coe, zpow_natCast]
  | negSucc n =>
    rw [ratPow10, Rat.divInt_eq_div, zpow_negSucc]
    push_cast
    rw [one_div]

theorem ratSum_eq (l : List ℚ) : ratSum l = l.sum := by
  have hgen : ∀ (l : List ℚ) (acc : ℚ), l.foldl ratAdd acc = acc + l.sum := by
    intro l
    induction l with
    | nil => intro acc; simp
    | cons q rest ih =>
      intro acc
      simp only [List.foldl, ratAdd_eq, List.sum_cons]
      rw [ih (acc + q)]
      ring
  simpa [ratSum] using hgen l 0

/-- The spec-side mean really is the unweighted arithmetic mean. -/
theorem spec_mean_score_eq (m : List (String × Json)) :
    spec_mean_score m = if m.isEmpty then 5
      else (m.map (fun kv => score_rat kv.2)).sum / m.length := by
  simp [spec_mean_score, ratDiv_eq, ratSum_eq]

theorem isPrefixOf_self (l : Chars) : l.isPrefixOf l = true := by
  induction l with
  | nil => rfl
  | cons c cs ih => simp [List.isPrefixOf, ih]

/-- A string occurs as a Python substring of any extension on the left. -/
theorem pySubstrChars_append_left (needle pre : Chars) :
    pySubstrChars needle (pre ++ needle) = true := by
  induction pre with
  | nil =>
    cases hd : needle with
    | nil => simp [pySubstrChars, List.isEmpty]
    | cons c cs =>
      subst hd
      simp [pySubstrChars, isPrefixOf_self (c :: cs)]
  | cons c cs ih =>
    simp only [List.cons_append, pySubstrChars]
    rw [show cs.append needle = cs ++ needle from rfl, ih]
    simp

/-- Lookup after a dict assignment. -/
theorem lookup_assocSet (kvs : List (String × α)) (k' : String) (v : α) (k : String) :
    List.lookup k (assocSet kvs k' v) = if k' = k then some v else List.lookup k kvs := by
  induction kvs with
  | nil =>
    by_cases h : k' = k
    · simp [assocSet, List.lookup, h]
    · have : (k == k') = false := by
        simp [beq_iff_eq]
        exact fun he => h he.symm
      simp [assocSet, List.lookup, h, this]
  | cons p rest ih =>
    obtain ⟨k0, v0⟩ := p
    by_cases h0 : k0 = k'
    · subst h0
      by_cases h : k0 = k
      · subst h
        simp [assocSet, List.lookup]
      · have : (k == k0) = false := by
          simp [beq_iff_eq]
          exact fun he => h he.symm
        simp [assocSet, List.lookup, h, this]
    · simp only [assocSet, if_neg h0, List.lookup]
      by_cases hk : k = k0
      · subst hk
        have hne : ¬ k' = k := fun he => h0 he.symm
        simp [hne]
      · have : (k == k0) = false := by simp [beq_iff_eq, hk]
        simp [this, ih]

/-- Assigning a key twice keeps only the last value. -/
theorem assocSet_assocSet_same (kvs : List (String × α)) (k : String) (v w : α) :
    assocSet (assocSet kvs k v) k w = assocSet kvs k w := by
  induction kvs with
  | nil => simp [assocSet]
  | cons p rest ih =>
    obtain ⟨k0, v0⟩ := p
    by_cases h : k0 = k
    · simp [assocSet, h]
    · simp [assocSet, h, ih]

/-- Assigning the value a key already holds is the identity. -/
theorem assocSet_lookup_id (kvs : List (String × α)) (k : String) (v : α)
    (h : List.lookup k kvs = some v) : assocSet kvs k v = kvs := by
  induction kvs with
  | nil => simp [List.lookup] at h
  | cons p rest ih =>
    obtain ⟨k0, v0⟩ := p
    by_cases hk : k = k0
    · subst hk
      simp [List.lookup] at h
      simp [assocSet, h]
    · have hne : (k == k0) = false := by simp [beq_iff_eq, hk]
      simp only [List.lookup, hne] at h
      simp only [assocSet]
      rw [if_neg (fun he => hk he.symm), ih (by simpa using h)]

/-- Every entry of an assigned association list either was there before or
carries the assigned value. -/
theorem mem_assocSet (kvs : List (String × α)) (k : String) (v : α) (kv : String × α)
    (h : kv ∈ assocSet kvs k v) : kv ∈ kvs ∨ kv.2 = v := by
  induction kvs with
  | nil =>
    simp [assocSet] at h
    subst h
    exact Or.inr rfl
  | cons p rest ih =>
    obtain ⟨k0, v0⟩ := p
    by_cases h0 : k0 = k
    · simp only [assocSet, if_pos h0] at h
      rcases List.mem_cons.mp h with h1 | h1
      · subst h1
        exact Or.inr rfl
      · exact Or.inl (List.mem_cons_of_mem _ h1)
    · simp only [assocSet, if_neg h0] at h
      rcases List.mem_cons.mp h with h1 | h1
      · subst h1
        exact Or.inl (List.mem_cons_self _ _)
      · rcases ih h1 with h2 | h2
        · exact Or.inl (List.mem_cons_of_mem _ h2)
        · exact Or.inr h2

/-- Boolean key search agrees with lookup. -/
theorem any_key_eq_lookup_isSome (kvs : List (String × α)) (k : String) :
    (kvs.any (fun kv => kv.1 == k)) = (List.lookup k kvs).isSome := by
  induction kvs with
  | nil => simp [List.lookup]
  | cons p rest ih =>
    obtain ⟨k0, v0⟩ := p
    by_cases h : k0 = k
    · subst h
      simp [List.lookup]
    · have h1 : (k0 == k) = false := by simp [beq_iff_eq, h]
      have h2 : (k == k0) = false := by
        simp [beq_iff_eq]
        exact fun he => h he.symm
      simp [List.lookup, h1, h2, ih]

/-- Lookup in a keyed map built over a key list. -/
theorem lookup_map_self (ks : List String) (f : String → Json) (k : String)
    (h : k ∈ ks) :
    List.lookup k (ks.map (fun k => (k, f k))) = some (f k) := by
  induction ks with
  | nil => simp at h
  | cons k0 rest ih =>
    by_cases hk : k = k0
    · subst hk
      simp [List.lookup]
    · have hne : (k == k0) = false := by simp [beq_iff_eq, hk]
      rcases List.mem_cons.mp h with h1 | h1
      · exact absurd h1 hk
      · simp [List.lookup, hne, ih h1]

/-- A looked-up value is one of the stored values. -/
theorem lookup_mem_snd (kvs : List (String × α)) (k : String) (v : α)
    (h : List.lookup k kvs = some v) : v ∈ kvs.map Prod.snd := by
  induction kvs with
  | nil => simp [List.lookup] at h
  | cons p rest ih =>
    obtain ⟨k0, v0⟩ := p
    by_cases hk : k = k0
    · subst hk
      simp [List.lookup] at h
      simp [h]
    · have hne : (k == k0) = false := by simp [beq_iff_eq, hk]
      simp only [List.lookup, hne] at h
      simp only [List.map_cons, List.mem_cons]
      exact Or.inr (ih (by simpa using h))

/-- Writing a key into an association list makes lookup of that key return
the written value. -/
theorem lookup_assocSet_self (kvs : List (String × α)) (k : String) (v : α) :
    List.lookup k (assocSet kvs k v) = some v := by
  induction kvs with
  | nil => simp [assocSet, List.lookup]
  | cons p rest ih =>
    obtain ⟨k0, v0⟩ := p
    by_cases h : k0 = k
    · simp [assocSet, h, List.lookup]
    · simp only [assocSet, if_neg h, List.lookup]
      have : (k == k0) = false := by
        simp [beq_iff_eq]
        exact fun he => h he.symm
      simp [this, ih]

/-- One completion step on a dict whose "metrics" slot holds a dict:
skip when the id is present, otherwise insert the neutral default. -/
theorem ensure_metric_step_obj (kvs m : List (String × Json)) (k : String)
    (h : List.lookup "metrics" kvs = some (.obj m)) :
    ensure_metric_step (.obj kvs) k =
      if (List.lookup k m).isSome then .ok (.obj kvs)
      else .ok (.obj (assocSet kvs "metrics" (.obj (assocSet m k default_metric_entry)))) := by
  by_cases hs : (List.lookup k m).isSome <;>
    simp [ensure_metric_step, pyDictGet, h, pyInOp, any_key_eq_lookup_isSome,
      pySetMetricItem, pySetItem, Bind.bind, Except.bind, hs, pure, Except.pure, Except.map]

/-- The completion loop on a dict whose "metrics" slot holds a dict never
raises and rewrites exactly the "metrics" slot with the completed map. -/
theorem ensure_metrics_obj (ks : List String) (kvs m : List (String × Json))
    (h : List.lookup "metrics" kvs = some (.obj m)) :
    ensure_metrics ks (.obj kvs) =
      .ok (.obj (assocSet kvs "metrics" (.obj (completeKeys ks m)))) := by
  induction ks generalizing kvs m with
  | nil =>
    simp [ensure_metrics, List.foldlM, completeKeys, assocSet_lookup_id kvs "metrics" _ h,
      pure, Except.pure]
  | cons k ks ih =>
    have hstep := ensure_metric_step_obj kvs m k h
    by_cases hs : (List.lookup k m).isSome
    · rw [if_pos hs] at hstep
      have hunf : ensure_metrics (k :: ks) (.obj kvs) = ensure_metrics ks (.obj kvs) := by
        simp [ensure_metrics, List.foldlM, hstep, Bind.bind, Except.bind]
      rw [hunf, ih kvs m h]
      simp [completeKeys, hs]
    · rw [if_neg hs] at hstep
      have h2 : List.lookup "metrics"
          (assocSet kvs "metrics" (.obj (assocSet m k default_metric_entry)))
          = some (.obj (assocSet m k default_metric_entry)) :=
        lookup_assocSet_self _ _ _
      have hunf : ensure_metrics (k :: ks) (.obj kvs) =
          ensure_metrics ks
            (.obj (assocSet kvs "metrics" (.obj (assocSet m k default_metric_entry)))) := by
        simp [ensure_metrics, List.foldlM, hstep, Bind.bind, Except.bind]
      rw [hunf, ih _ _ h2, assocSet_assocSet_same]
      simp [completeKeys, hs]

/-- Completion never removes an id that is already present. -/
theorem completeKeys_preserves_isSome (ks : List String) (m : List (String × Json))
    (k : String) (h : (List.lookup k m).isSome = true) :
    (List.lookup k (completeKeys ks m)).isSome = true := by
  induction ks generalizing m with
  | nil => simpa [completeKeys] using h
  | cons k1 ks1 ih =>
    by_cases hs : (List.lookup k1 m).isSome
    · simpa [completeKeys, hs] using ih m h
    · have h2 : (List.lookup k (assocSet m k1 default_metric_entry)).isSome = true := by
        rw [lookup_assocSet]
        by_cases he : k1 = k
        · simp [he]
        · simpa [he] using h
      simpa [completeKeys, hs] using ih _ h2

/-- Every rubric id ends up present in the completed map. -/
theorem completeKeys_mem_isSome (ks : List String) (m : List (String × Json)) (k : String)
    (h : k ∈ ks) : (List.lookup k (completeKeys ks m)).isSome = true := by
  induction ks generalizing m with
  | nil => simp at h
  | cons k0 ks ih =>
    rcases List.mem_cons.mp h with h1 | h1
    · subst h1
      by_cases hs : (List.lookup k m).isSome
      · simpa [completeKeys, hs] using completeKeys_preserves_isSome ks m k hs
      · have h2 : (List.lookup k (assocSet m k default_metric_entry)).isSome = true := by
          simp [lookup_assocSet_self]
        simpa [completeKeys, hs] using completeKeys_preserves_isSome ks _ k h2
    · by_cases hs : (List.lookup k0 m).isSome <;> simpa [completeKeys, hs] using ih _ h1

/-- Completion only ever inserts the neutral default entry. -/
theorem completeKeys_values (ks : List String) (m : List (String × Json))
    (h : ∀ kv ∈ m, kv.2 = default_metric_entry) :
    ∀ kv ∈ completeKeys ks m, kv.2 = default_metric_entry := by
  induction ks generalizing m with
  | nil => simpa [completeKeys] using h
  | cons k0 ks ih =>
    by_cases hs : (List.lookup k0 m).isSome
    · simpa [completeKeys, hs] using ih m h
    · have h2 : ∀ kv ∈ assocSet m k0 default_metric_entry, kv.2 = default_metric_entry := by
        intro kv hkv
        rcases mem_assocSet m k0 default_metric_entry kv hkv with h3 | h3
        · exact h kv h3
        · exact h3
      simpa [completeKeys, hs] using ih _ h2

/-- Successful item assignment happens on a dict and rewrites one key. -/
theorem pySetItem_ok (d : Json) (k : String) (v : Json) (d' : Json)
    (h : pySetItem d k v = .ok d') :
    ∃ kvs, d = .obj kvs ∧ d' = .obj (assocSet kvs k v) := by
  cases d with
  | obj kvs =>
    refine ⟨kvs, rfl, ?_⟩
    simpa [pySetItem] using h.symm
  | null => simp [pySetItem] at h
  | bool b => simp [pySetItem] at h
  | num q => simp [pySetItem] at h
  | str s => simp [pySetItem] at h
  | arr es => simp [pySetItem] at h

/-- A successful `ensure_field` leaves every other key unchanged. -/
theorem ensure_field_ok_objGet (d d' : Json) (k v : String) (k2 : String)
    (h : ensure_field d k v = .ok d') (hne : k ≠ k2) :
    d'.objGet k2 = d.objGet k2 := by
  simp only [ensure_field, Bind.bind] at h
  cases h1 : pyInOp k d with
  | error e => rw [h1] at h; simp [Except.bind] at h
  | ok b =>
    rw [h1] at h
    simp only [Except.bind] at h
    cases b with
    | true =>
      simp only [if_pos, pure, Except.pure, Except.ok.injEq] at h
      rw [h]
    | false =>
      simp only [Bool.false_eq_true, if_neg, not_false_eq_true] at h
      obtain ⟨kvs, hd, hd'⟩ := pySetItem_ok d k (.str v) d' h
      subst hd
      subst hd'
      simp [Json.objGet, lookup_assocSet, hne]

/-- `ensure_field` does nothing when the key is present on a dict. -/
theorem ensure_field_present (kvs : List (String × Json)) (k v : String)
    (h : (List.lookup k kvs).isSome = true) :
    ensure_field (.obj kvs) k v = .ok (.obj kvs) := by
  simp [ensure_field, pyInOp, any_key_eq_lookup_isSome, h, Bind.bind, Except.bind,
    pure, Except.pure]

/-- `ensure_overall` does nothing when `overall_score` is present on a
dict. -/
theorem ensure_overall_present (kvs : List (String × Json))
    (h : (List.lookup "overall_score" kvs).isSome = true) :
    ensure_overall (.obj kvs) = .ok (.obj kvs) := by
  simp [ensure_overall, pyInOp, any_key_eq_lookup_isSome, h, Bind.bind, Except.bind,
    pure, Except.pure]

/-- A successful `ensure_overall` leaves every key other than
`overall_score` unchanged. -/
theorem ensure_overall_ok_objGet (d d' : Json) (k2 : String)
    (h : ensure_overall d = .ok d') (hne : k2 ≠ "overall_score") :
    d'.objGet k2 = d.objGet k2 := by
  simp only [ensure_overall, Bind.bind] at h
  cases h1 : pyInOp "overall_score" d with
  | error e => rw [h1] at h; simp [Except.bind] at h
  | ok b =>
    rw [h1] at h
    simp only [Except.bind] at h
    cases b with
    | true =>
      simp only [if_pos, pure, Except.pure, Except.ok.injEq] at h
      rw [h]
    | false =>
      simp only [Bool.false_eq_true, if_neg, not_false_eq_true] at h
      cases h2 : pyDictGet d "metrics" (.obj []) with
      | error e => rw [h2] at h; simp [Except.bind] at h
      | ok g =>
        rw [h2] at h
        simp only [Except.bind] at h
        cases h3 : pyDictValues g with
        | error e => rw [h3] at h; simp [Except.bind] at h
        | ok vals =>
          rw [h3] at h
          simp only [Except.bind] at h
          cases h4 : vals.mapM (fun m => pyDictGet m "score" (.num 5)) with
          | error e => rw [h4] at h; simp [Except.bind] at h
          | ok scores =>
            rw [h4] at h
            simp only [Except.bind] at h
            cases h5 : pySum scores with
            | error e => rw [h5] at h; simp [Except.bind] at h
            | ok total =>
              rw [h5] at h
              simp only [Except.bind] at h
              obtain ⟨kvs, hd, hd'⟩ := pySetItem_ok d "overall_score" _ d' h
              subst hd
              subst hd'
              simp only [Json.objGet]
              rw [lookup_assocSet, if_neg (fun he => hne he.symm)]

/-- Reading the scores of well-formed metric entries never raises. -/
theorem mapM_scores (vals : List Json) (h : ∀ v ∈ vals, entry_score_ok v = true) :
    vals.mapM (fun m => pyDictGet m "score" (.num 5)) = .ok (vals.map score_value_json) := by
  induction vals with
  | nil => rfl
  | cons v rest ih =>
    have hv : entry_score_ok v = true := h v (List.mem_cons_self _ _)
    have hget : pyDictGet v "score" (.num 5) = .ok (score_value_json v) := by
      cases v with
      | obj kvs => simp [pyDictGet, score_value_json]
      | null => simp [entry_score_ok] at hv
      | bool b => simp [entry_score_ok] at hv
      | num q => simp [entry_score_ok] at hv
      | str s => simp [entry_score_ok] at hv
      | arr es => simp [entry_score_ok] at hv
    rw [List.mapM_cons, hget, ih (fun v hm => h v (List.mem_cons_of_mem _ hm))]
    simp [Bind.bind, Except.bind, pure, Except.pure]

/-- The score slot of a well-formed entry is the numeric score. -/
theorem score_value_num (v : Json) (h : entry_score_ok v = true) :
    score_value_json v = .num (score_rat v) := by
  cases v with
  | obj kvs =>
    cases hl : List.lookup "score" kvs with
    | none => simp [score_value_json, score_rat, hl]
    | some w =>
      cases w <;> simp_all [entry_score_ok, score_value_json, score_rat, hl]
  | null => simp [entry_score_ok] at h
  | bool b => simp [entry_score_ok] at h
  | num q => simp [entry_score_ok] at h
  | str s => simp [entry_score_ok] at h
  | arr es => simp [entry_score_ok] at h

/-- Summing numeric scores never raises and yields the rational sum. -/
theorem pySum_nums (vals : List ℚ) : pySum (vals.map Json.num) = .ok (ratSum vals) := by
  have hgen : ∀ (l : List ℚ) (acc : ℚ),
      List.foldlM
        (fun acc v =>
          match v with
          | Json.num q => Except.ok (ratAdd acc q)
          | Json.bool b => Except.ok (ratAdd acc (if b then 1 else 0))
          | _ => Except.error (PyErr.typeError "unsupported operand type(s) for +"))
        acc (l.map Json.num) = .ok (l.foldl ratAdd acc) := by
    intro l
    induction l with
    | nil => intro acc; simp [List.foldlM, pure, Except.pure]
    | cons q rest ih =>
      intro acc
      simp only [List.map_cons, List.foldlM_cons, Bind.bind, Except.bind, List.foldl]
      exact ih (ratAdd acc q)
  simpa [pySum, ratSum] using hgen vals 0

/-- One completion step establishes presence of its id whenever the
resulting metrics slot is a dict. -/
theorem ensure_metric_step_establishes (d d₁ : Json) (k : String)
    (h : ensure_metric_step d k = .ok d₁) :
    ∀ m, d₁.objGet "metrics" = some (.obj m) → (List.lookup k m).isSome = true := by
  intro m hm
  cases d with
  | obj kvs =>
    cases hg : List.lookup "metrics" kvs with
    | none =>
      simp [ensure_metric_step, pyDictGet, hg, pyInOp, Bind.bind, Except.bind,
        pySetMetricItem, hg] at h
    | some mv =>
      cases mv with
      | obj m0 =>
        rw [ensure_metric_step] at h
        simp only [pyDictGet, hg, Option.getD_some, Bind.bind, Except.bind, pyInOp,
          any_key_eq_lookup_isSome] at h
        by_cases hs : (List.lookup k m0).isSome
        · simp only [hs, if_pos, pure, Except.pure, Except.ok.injEq] at h
          subst h
          simp only [Json.objGet, hg, Option.some.injEq, Json.obj.injEq] at hm
          subst hm
          exact hs
        · simp only [Bool.not_eq_true] at hs
          simp only [hs, Bool.false_eq_true, if_neg, not_false_eq_true,
            pySetMetricItem, hg, pySetItem, Except.map, Except.ok.injEq] at h
          subst h
          simp only [Json.objGet, lookup_assocSet_self, Option.some.injEq,
            Json.obj.injEq] at hm
          subst hm
          simp [lookup_assocSet_self]
      | arr es =>
        rw [ensure_metric_step] at h
        simp only [pyDictGet, hg, Option.getD_some, Bind.bind, Except.bind, pyInOp] at h
        by_cases hb : es.any (fun e => match e with | Json.str s => s == k | _ => false)
        · simp only [hb, if_pos, pure, Except.pure, Except.ok.injEq] at h
          subst h
          simp [Json.objGet, hg] at hm
        · simp only [hb, Bool.false_eq_true, if_neg, not_false_eq_true,
            pySetMetricItem, hg, pySetItem, Except.map] at h
          exact Except.noConfusion h
      | str s =>
        rw [ensure_metric_step] at h
        simp only [pyDictGet, hg, Option.getD_some, Bind.bind, Except.bind, pyInOp] at h
        by_cases hb : pyContains k s
        · simp only [hb, if_pos, pure, Except.pure, Except.ok.injEq] at h
          subst h
          simp [Json.objGet, hg] at hm
        · simp only [hb, Bool.false_eq_true, if_neg, not_false_eq_true,
            pySetMetricItem, hg, pySetItem, Except.map] at h
          exact Except.noConfusion h
      | null =>
        simp [ensure_metric_step, pyDictGet, hg, pyInOp, Bind.bind, Except.bind] at h
      | bool b =>
        simp [ensure_metric_step, pyDictGet, hg, pyInOp, Bind.bind, Except.bind] at h
      | num q =>
        simp [ensure_metric_step, pyDictGet, hg, pyInOp, Bind.bind, Except.bind] at h
  | null => simp [ensure_metric_step, pyDictGet, Bind.bind, Except.bind] at h
  | bool b => simp [ensure_metric_step, pyDictGet, Bind.bind, Except.bind] at h
  | num q => simp [ensure_metric_step, pyDictGet, Bind.bind, Except.bind] at h
  | str s => simp [ensure_metric_step, pyDictGet, Bind.bind, Except.bind] at h
  | arr es => simp [ensure_metric_step, pyDictGet, Bind.bind, Except.bind] at h

/-- One completion step never removes an id that was present. -/
theorem ensure_metric_step_preserves (d d₁ : Json) (k' k : String)
    (h : ensure_metric_step d k' = .ok d₁)
    (hP : ∀ m, d.objGet "metrics" = some (.obj m) → (List.lookup k m).isSome = true) :
    ∀ m, d₁.objGet "metrics" = some (.obj m) → (List.lookup k m).isSome = true := by
  intro m hm
  cases d with
  | obj kvs =>
    cases hg : List.lookup "metrics" kvs with
    | none =>
      simp [ensure_metric_step, pyDictGet, hg, pyInOp, Bind.bind, Except.bind,
        pySetMetricItem] at h
    | some mv =>
      cases mv with
      | obj m0 =>
        rw [ensure_metric_step] at h
        simp only [pyDictGet, hg, Option.getD_some, Bind.bind, Except.bind, pyInOp,
          any_key_eq_lookup_isSome] at h
        by_cases hs : (List.lookup k' m0).isSome
        · simp only [hs, if_pos, pure, Except.pure, Except.ok.injEq] at h
          subst h
          exact hP m hm
        · simp only [Bool.not_eq_true] at hs
          simp only [hs, Bool.false_eq_true, if_neg, not_false_eq_true,
            pySetMetricItem, hg, pySetItem, Except.map, Except.ok.injEq] at h
          subst h
          simp only [Json.objGet, lookup_assocSet_self, Option.some.injEq,
            Json.obj.injEq] at hm
          subst hm
          rw [lookup_assocSet]
          by_cases he : k' = k
          · simp [he]
          · simpa [he] using hP m0 (by simp [Json.objGet, hg])
      | arr es =>
        rw [ensure_metric_step] at h
        simp only [pyDictGet, hg, Option.getD_some, Bind.bind, Except.bind, pyInOp] at h
        by_cases hb : es.any (fun e => match e with | Json.str s => s == k' | _ => false)
        · simp only [hb, if_pos, pure, Except.pure, Except.ok.injEq] at h
          subst h
          exact hP m hm
        · simp only [hb, Bool.false_eq_true, if_neg, not_false_eq_true,
            pySetMetricItem, hg, pySetItem, Except.map] at h
          exact Except.noConfusion h
      | str s =>
        rw [ensure_metric_step] at h
        simp only [pyDictGet, hg, Option.getD_some, Bind.bind, Except.bind, pyInOp] at h
        by_cases hb : pyContains k' s
        · simp only [hb, if_pos, pure, Except.pure, Except.ok.injEq] at h
          subst h
          exact hP m hm
        · simp only [hb, Bool.false_eq_true, if_neg, not_false_eq_true,
            pySetMetricItem, hg, pySetItem, Except.map] at h
          exact Except.noConfusion h
      | null =>
        simp [ensure_metric_step, pyDictGet, hg, pyInOp, Bind.bind, Except.bind] at h
      | bool b =>
        simp [ensure_metric_step, pyDictGet, hg, pyInOp, Bind.bind, Except.bind] at h
      | num q =>
        simp [ensure_metric_step, pyDictGet, hg, pyInOp, Bind.bind, Except.bind] at h
  | null => simp [ensure_metric_step, pyDictGet, Bind.bind, Except.bind] at h
  | bool b => simp [ensure_metric_step, pyDictGet, Bind.bind, Except.bind] at h
  | num q => simp [ensure_metric_step, pyDictGet, Bind.bind, Except.bind] at h
  | str s => simp [ensure_metric_step, pyDictGet, Bind.bind, Except.bind] at h
  | arr es => simp [ensure_metric_step, pyDictGet, Bind.bind, Except.bind] at h

/-- The completion loop preserves presence of an id in a dict-valued
metrics slot. -/
theorem ensure_metrics_preserves (ks : List String) (d d' : Json) (k : String)
    (h : ensure_metrics ks d = .ok d')
    (hP : ∀ m, d.objGet "metrics" = some (.obj m) → (List.lookup k m).isSome = true) :
    ∀ m, d'.objGet "metrics" = some (.obj m) → (List.lookup k m).isSome = true := by
  induction ks generalizing d with
  | nil =>
    simp only [ensure_metrics, List.foldlM, pure, Except.pure, Except.ok.injEq] at h
    subst h
    exact hP
  | cons k0 ks ih =>
    simp only [ensure_metrics, List.foldlM_cons, Bind.bind] at h
    cases hstep : ensure_metric_step d k0 with
    | error e => rw [hstep] at h; simp [Except.bind] at h
    | ok d₁ =>
      rw [hstep] at h
      simp only [Except.bind] at h
      exact ih d₁ h (ensure_metric_step_preserves d d₁ k0 k hstep hP)

/-- After a successful completion loop, every processed rubric id is
present whenever the metrics slot is a dict. -/
theorem ensure_metrics_establishes (ks : List String) (d d' : Json) (k : String)
    (h : ensure_metrics ks d = .ok d') (hk : k ∈ ks) :
    ∀ m, d'.objGet "metrics" = some (.obj m) → (List.lookup k m).isSome = true := by
  induction ks generalizing d with
  | nil => simp at hk
  | cons k0 ks ih =>
    simp only [ensure_metrics, List.foldlM_cons, Bind.bind] at h
    cases hstep : ensure_metric_step d k0 with
    | error e => rw [hstep] at h; simp [Except.bind] at h
    | ok d₁ =>
      rw [hstep] at h
      simp only [Except.bind] at h
      rcases List.mem_cons.mp hk with h1 | h1
      · subst h1
        exact ensure_metrics_preserves ks d₁ d' k h
          (ensure_metric_step_establishes d d₁ k hstep)
      · exact ih d₁ h h1

/-- A string is a Python substring of itself prefixed by anything. -/
theorem pyContains_append_left (t s : String) : pyContains t (s ++ t) = true := by
  simpa [pyContains, String.data_append] using pySubstrChars_append_left t.data s.data

/-- `ensure_field` on a dict: keep it when the key is present, else store
the default text. -/
theorem ensure_field_obj (kvs : List (String × Json)) (k v : String) :
    ensure_field (.obj kvs) k v
      = .ok (if (List.lookup k kvs).isSome then .obj kvs
             else .obj (assocSet kvs k (.str v))) := by
  by_cases h : (List.lookup k kvs).isSome <;>
    simp [ensure_field, pyInOp, any_key_eq_lookup_isSome, h, Bind.bind, Except.bind,
      pySetItem, pure, Except.pure]

/-- `ensure_field` on a dict succeeds and can only touch its own key. -/
theorem ensure_field_obj2 (kvs : List (String × Json)) (k v : String) :
    ∃ kvs2, ensure_field (.obj kvs) k v = .ok (.obj kvs2) ∧
      ∀ k2, k2 ≠ k → List.lookup k2 kvs2 = List.lookup k2 kvs := by
  by_cases h : (List.lookup k kvs).isSome
  · exact ⟨kvs, by rw [ensure_field_obj, if_pos h], fun _ _ => rfl⟩
  · refine ⟨assocSet kvs k (.str v), by rw [ensure_field_obj, if_neg h], ?_⟩
    intro k2 hne
    rw [lookup_assocSet, if_neg (fun he => hne he.symm)]

/-- The mean computation of lines 276-280 on a dict with no
`overall_score` and a dict-valued metrics slot of well-formed entries:
store exactly the spec-side unweighted mean. -/
theorem ensure_overall_absent (kvs m : List (String × Json))
    (habs : List.lookup "overall_score" kvs = none)
    (hm : List.lookup "metrics" kvs = some (.obj m))
    (hok : ∀ kv ∈ m, entry_score_ok kv.2 = true) :
    ensure_overall (.obj kvs)
      = .ok (.obj (assocSet kvs "overall_score" (.num (spec_mean_score m)))) := by
  have hvals : ∀ v ∈ m.map Prod.snd, entry_score_ok v = true := by
    intro v hv
    obtain ⟨kv, hkv, hvv⟩ := List.mem_map.mp hv
    rw [← hvv]
    exact hok kv hkv
  have hmapm := mapM_scores (m.map Prod.snd) hvals
  have hscores : (m.map Prod.snd).map score_value_json
      = (m.map (fun kv => score_rat kv.2)).map Json.num := by
    rw [List.map_map, List.map_map]
    apply List.map_congr_left
    intro kv hkv
    simp only [Function.comp]
    exact score_value_num kv.2 (hok kv hkv)
  have hsum := pySum_nums (m.map (fun kv => score_rat kv.2))
  have hin : pyInOp "overall_score" (.obj kvs) = .ok false := by
    simp [pyInOp, any_key_eq_lookup_isSome, habs]
  cases m with
  | nil =>
    have hget : pyDictGet (Json.obj kvs) "metrics" (Json.obj []) = .ok (.obj []) := by
      simp [pyDictGet, hm]
    simp only [ensure_overall, Bind.bind, hin, Except.bind, Bool.false_eq_true, if_false,
      hget]
    rfl
  | cons kv0 mrest =>
    rw [hscores] at hmapm
    have hget : pyDictGet (Json.obj kvs) "metrics" (Json.obj [])
        = .ok (.obj (kv0 :: mrest)) := by
      simp [pyDictGet, hm]
    have hvv : pyDictValues (Json.obj (kv0 :: mrest))
        = .ok ((kv0 :: mrest).map Prod.snd) := by
      simp [pyDictValues]
    simp only [ensure_overall, Bind.bind, hin, Except.bind, Bool.false_eq_true, if_false,
      hget, hvv, hmapm, hsum, pySetItem]
    simp [spec_mean_score, List.isEmpty, List.length_map]

/-! ## Theorems -/

/-- C9: when the conversation seed contains a non-whitespace character,
`create_rag_chain` seeds the fresh memory with exactly one synthetic prior
exchange (fixed placeholder user turn, seed text as prior assistant turn);
when the seed is empty or whitespace-only the memory starts empty.  In
particular no multi-turn transcript is ever replayed. -/
theorem c9_memory_seeding (s : String) :
    ((∃ c ∈ s.data, pyWs c = false) →
      create_rag_chain_memory s =
        [ChatMessage.user "Previous conversation context", ChatMessage.ai s]) ∧
    ((∀ c ∈ s.data, pyWs c = true) → create_rag_chain_memory s = []) := by
  constructor
  · rintro ⟨c, hc, hws⟩
    have hne : s ≠ "" := by
      intro h
      subst h
      simp at hc
    have hstrip : pyStrip s ≠ "" := by
      intro h
      have hdata : pyStripChars s.data = [] := congrArg String.data h
      have h1 : (s.data.dropWhile pyWs).reverse.dropWhile pyWs = [] := by
        have := congrArg List.reverse hdata
        simpa [pyStripChars] using this
      have hmem1 : c ∈ s.data.dropWhile pyWs := by
        have hc2 : c ∈ s.data.takeWhile pyWs ++ s.data.dropWhile pyWs := by
          rw [List.takeWhile_append_dropWhile]
          exact hc
        rcases List.mem_append.mp hc2 with h2 | h2
        · exact absurd (List.mem_takeWhile_imp h2) (by simp [hws])
        · exact h2
      have hmem2 : c ∈ (s.data.dropWhile pyWs).reverse := List.mem_reverse.mpr hmem1
      have hall2 := List.dropWhile_eq_nil_iff.mp h1
      exact absurd (hall2 c hmem2) (by simp [hws])
    simp [create_rag_chain_memory, hne, hstrip]
  · intro hall
    by_cases hne : s = ""
    · subst hne
      simp [create_rag_chain_memory]
    · have hstrip : pyStrip s = "" := by
        have h1 : s.data.dropWhile pyWs = [] :=
          List.dropWhile_eq_nil_iff.mpr (fun c hc => hall c hc)

        simp [pyStrip, pyStripChars, h1]
      simp [create_rag_chain_memory, hstrip]

/-- Witness for C9 at concrete seeds. -/
theorem c9_memory_seeding_witness :
    create_rag_chain_memory "The capital is Paris." =
      [ChatMessage.user "Previous conversation context",
        ChatMessage.ai "The capital is Paris."] ∧
    create_rag_chain_memory "  \n " = [] := by
  constructor
  · exact (c9_memory_seeding "The capital is Paris.").1 (by decide)
  · exact (c9_memory_seeding "  \n ").2 (by decide)

/-- C8: whenever the chain invocation raises, `generate_rag_response`
propagates no fault: it returns an answer that is a textual error
placeholder containing the error message, together with an empty chunk
sequence. -/
theorem c8_generation_error_degrades (chain : String → Except String ChainResponse)
    (question : String) (e : String) (h : chain question = .error e) :
    (generate_rag_response chain question).answer = "Error generating response: " ++ e ∧
    pyContains e (generate_rag_response chain question).answer = true ∧
    (generate_rag_response chain question).source_documents = [] := by
  refine ⟨by simp [generate_rag_response, h], ?_, by simp [generate_rag_response, h]⟩
  have hans : (generate_rag_response chain question).answer
      = "Error generating response: " ++ e := by simp [generate_rag_response, h]
  rw [hans]
  simpa [pyContains, String.data_append] using
    pySubstrChars_append_left e.data ("Error generating response: ".data)

/-- Witness for C8 at a concrete failing chain. -/
theorem c8_generation_error_degrades_witness :
    (generate_rag_response (fun _ => .error "socket timeout") "What is 2+2?").answer
        = "Error generating response: socket timeout" ∧
    pyContains "socket timeout"
        (generate_rag_response (fun _ => .error "socket timeout") "What is 2+2?").answer = true ∧
    (generate_rag_response (fun _ => .error "socket timeout") "What is 2+2?").source_documents
        = [] :=
  c8_generation_error_degrades (fun _ => .error "socket timeout") "What is 2+2?"
    "socket timeout" rfl

/-- C6 counterexample: for the marker model id "gpt-5" with requested
temperature 0.3, the generation-role resolution (get_llm_provider, OpenAI
branch) passes no output-token-limit argument at all, so the claim that
both roles use max_completion_tokens is false; only the judging-role
client does. -/
theorem c6_counterexample :
    (get_llm_provider_openai "gpt-5" (3/10)).tokenParam = TokenParam.noLimit ∧
    (evaluator_client_openai "gpt-5").tokenParam = TokenParam.maxCompletionTokens 4096 ∧
    TokenParam.noLimit ≠ TokenParam.maxCompletionTokens 4096 := by
  refine ⟨by decide, by decide, by decide⟩

/-- C6 amended: a model id containing a fixed-temperature marker
(case-insensitive substring match, same predicate in every branch that
inspects model names) resolves to temperature 1.0 regardless of the
requested temperature in both the generation role (OpenAI and DeepInfra
branches of get_llm_provider) and the judging role (OpenAI and Custom
Models evaluator branches); the judging role then uses
max_completion_tokens 4096 instead of max_tokens, while the generation
role passes no output-token-limit parameter. -/
theorem c6_fixed_temp_amended (model : String) (temperature model_temperature : ℚ)
    (h : is_fixed_temp_model model = true) :
    (get_llm_provider_openai model temperature).temperature = 1 ∧
    (get_llm_provider_deepinfra model temperature).temperature = 1 ∧
    (evaluator_client_openai model).temperature = 1 ∧
    (evaluator_client_custom model model_temperature).temperature = 1 ∧
    (evaluator_client_openai model).tokenParam = TokenParam.maxCompletionTokens 4096 ∧
    (evaluator_client_custom model model_temperature).tokenParam
      = TokenParam.maxCompletionTokens 4096 ∧
    (get_llm_provider_openai model temperature).tokenParam = TokenParam.noLimit ∧
    (get_llm_provider_deepinfra model temperature).tokenParam = TokenParam.noLimit := by
  simp [get_llm_provider_openai, get_llm_provider_deepinfra, evaluator_client_openai,
    evaluator_client_custom, h]

/-- Witness for the amended C6 at model "gpt-5" and requested temperature
0.3. -/
theorem c6_fixed_temp_amended_witness :
    (get_llm_provider_openai "gpt-5" (3/10)).temperature = 1 ∧
    (get_llm_provider_deepinfra "gpt-5" (3/10)).temperature = 1 ∧
    (evaluator_client_openai "gpt-5").temperature = 1 ∧
    (evaluator_client_custom "gpt-5" (3/10)).temperature = 1 ∧
    (evaluator_client_openai "gpt-5").tokenParam = TokenParam.maxCompletionTokens 4096 ∧
    (evaluator_client_custom "gpt-5" (3/10)).tokenParam
      = TokenParam.maxCompletionTokens 4096 ∧
    (get_llm_provider_openai "gpt-5" (3/10)).tokenParam = TokenParam.noLimit ∧
    (get_llm_provider_deepinfra "gpt-5" (3/10)).tokenParam = TokenParam.noLimit :=
  c6_fixed_temp_amended "gpt-5" (3/10) (3/10) (by decide)

/-- C7 counterexample: with no custom metrics registered, registering
"Task Completion" derives the id "task_completion", which collides with a
built-in metric id, yet the registration succeeds instead of failing with
a duplicate-id error; and at rubric assembly the custom entry replaces the
built-in descriptor rather than the rubric retaining only the first. -/
theorem c7_counterexample :
    derive_metric_id "Task Completion" = "task_completion" ∧
    (DEFAULT_METRICS.map Prod.fst).contains "task_completion" = true ∧
    add_custom_metric [] "Task Completion" "Did the task get done"
      = .ok [{ id := "task_completion", name := "Task Completion",
               description := "Did the task get done" }] ∧
    List.lookup "task_completion"
        (build_all_metrics [{ id := "task_completion", name := "Task Completion",
                              description := "Did the task get done" }])
      = some { name := "Task Completion", description := "Did the task get done" } := by
  refine ⟨by decide, by decide, rfl, rfl⟩

/-- C7 amended: a registration whose name normalizes to the same id as a
previously registered custom metric is rejected with the duplicate-id
error; collisions with built-in ids are not checked, and at rubric
assembly the custom entry overwrites the colliding built-in descriptor
(the id maps to the custom definition). -/
theorem c7_duplicate_custom_amended (customs customs1 : List CustomMetric)
    (n1 d1 n2 d2 : String)
    (h1 : add_custom_metric customs n1 d1 = .ok customs1)
    (h2 : derive_metric_id n2 = derive_metric_id n1)
    (hn2 : n2 ≠ "") (hd2 : d2 ≠ "") :
    add_custom_metric customs1 n2 d2 = .error "A metric with similar name already exists" ∧
    List.lookup (derive_metric_id n1) (build_all_metrics customs1)
      = some { name := n1, description := d1 } := by
  rw [add_custom_metric] at h1
  split at h1
  · exact absurd h1 (by simp)
  · split at h1
    · exact absurd h1 (by simp)
    · have hcustoms1 : customs1 = customs ++
          [{ id := derive_metric_id n1, name := n1, description := d1 }] :=
        (Except.ok.inj h1).symm
      constructor
      · have hmem : derive_metric_id n2 ∈ customs1.map (·.id) := by
          rw [hcustoms1, h2]
          simp
        rw [add_custom_metric, if_neg (by simp [hn2, hd2]),
          if_pos (List.elem_eq_true_of_mem hmem)]
      · rw [hcustoms1, build_all_metrics, List.foldl_append]
        exact lookup_assocSet_self _ (derive_metric_id n1) _

/-- Witness for the amended C7: registering "Task Completion" then
"task-completion" fails the second registration, and the assembled rubric
maps task_completion to the first custom entry. -/
theorem c7_duplicate_custom_amended_witness :
    add_custom_metric
        [{ id := "task_completion", name := "Task Completion",
           description := "Did the task get done" }] "task-completion" "dup"
      = .error "A metric with similar name already exists" ∧
    List.lookup (derive_metric_id "Task Completion")
        (build_all_metrics [{ id := "task_completion", name := "Task Completion",
                              description := "Did the task get done" }])
      = some { name := "Task Completion", description := "Did the task get done" } :=
  c7_duplicate_custom_amended []
    [{ id := "task_completion", name := "Task Completion",
       description := "Did the task get done" }]
    "Task Completion" "Did the task get done" "task-completion" "dup"
    rfl (by decide) (by decide) (by decide)

/-- C2 counterexample: on this reply the first strategy's extracted text
parses as JSON (to null), yet the `evaluation_dict is None` re-check at
line 255 discards it, the break has already skipped the remaining
patterns, the whole-reply decode fails, and the soft-failure default is
synthesized — so the first successful parse does not win as claimed. -/
theorem c2_counterexample :
    spec_tagged_fence_json "```json\nnull\n```\n\x7b\"x\": 1\x7d" = some Json.null ∧
    spec_ordered_recovery "```json\nnull\n```\n\x7b\"x\": 1\x7d" = Json.null ∧
    extract_evaluation_dict "```json\nnull\n```\n\x7b\"x\": 1\x7d"
      = default_evaluation_dict "```json\nnull\n```\n\x7b\"x\": 1\x7d" ∧
    default_evaluation_dict "```json\nnull\n```\n\x7b\"x\": 1\x7d" ≠ Json.null := by
  refine ⟨by rfl, by rfl, by rfl, ?_⟩
  intro h
  exact Json.noConfusion h

/-- C2 amended: recovery tries the strategies in the fixed order tagged
fence, untagged fence, greedy brace span, whole reply, and the first
strategy whose extracted text decodes as JSON wins, except that a decode
yielding JSON null aborts the pattern cascade (remaining patterns are
skipped) and recovery falls through to the whole-reply decode and then
the soft-failure default: the code's cascade equals the null-aware
spec-side ordered recovery for every reply. -/
theorem c2_extraction_order_null_amended (evaluation : String) :
    extract_evaluation_dict evaluation = spec_ordered_recovery_null evaluation := by
  have hps : extract_by_patterns evaluation =
      (spec_tagged_fence_json evaluation).orElse
        (fun _ => (spec_untagged_fence_json evaluation).orElse
          (fun _ => spec_brace_span_json evaluation)) := by
    cases hA : (matchFenceJsonWs evaluation.data).bind
        (fun c => json_loads (pyStrip ⟨c⟩)) <;>
    cases hB : (matchFenceJsonTight evaluation.data).bind
        (fun c => json_loads (pyStrip ⟨c⟩)) <;>
    cases hC : (matchFenceGeneric evaluation.data).bind
        (fun c => json_loads (pyStrip ⟨c⟩)) <;>
    cases hD : (matchBraceSpan evaluation.data).bind
        (fun c => json_loads (pyStrip ⟨c⟩)) <;>
      simp [extract_by_patterns, json_patterns, firstSome, spec_tagged_fence_json,
        spec_untagged_fence_json, spec_brace_span_json, Option.orElse, hA, hB, hC, hD]
  rcases hval : (spec_tagged_fence_json evaluation).orElse
      (fun _ => (spec_untagged_fence_json evaluation).orElse
        (fun _ => spec_brace_span_json evaluation)) with _ | d
  · simp only [extract_evaluation_dict, spec_ordered_recovery_null, hps, hval,
      whole_reply_or_default, spec_whole_reply_json]
  · cases d <;>
      simp only [extract_evaluation_dict, spec_ordered_recovery_null, hps, hval,
        whole_reply_or_default, spec_whole_reply_json]

/-- C5: whenever judge invocation raises an error whose lowered text
contains an authentication/unauthorized substring, evaluate_response
returns the hard-failure result: overall_score 0, every rubric metric
scored 0 with an explanation containing the classified error text, and no
exception escapes (the embedding is total); when the text contains no
connection substring the classified text is the invalid-API-key
message. -/
theorem c5_auth_error_zero_result (metrics : List (String × MetricDef))
    (eval_provider errMsg : String)
    (hauth : pyContains "authentication" (pyLower errMsg) = true ∨
             pyContains "unauthorized" (pyLower errMsg) = true) :
    evaluate_response metrics eval_provider (.raised errMsg)
      = evaluation_error_result (metrics.map Prod.fst)
          (classify_api_error eval_provider errMsg) ∧
    (evaluate_response metrics eval_provider (.raised errMsg)).objGet "overall_score"
      = some (.num 0) ∧
    (∀ k ∈ metrics.map Prod.fst,
      result_metric_score (evaluate_response metrics eval_provider (.raised errMsg)) k
        = some (.num 0) ∧
      result_metric_explanation (evaluate_response metrics eval_provider (.raised errMsg)) k
        = some (.str ("Evaluation error: " ++ classify_api_error eval_provider errMsg)) ∧
      pyContains (classify_api_error eval_provider errMsg)
        ("Evaluation error: " ++ classify_api_error eval_provider errMsg) = true) ∧
    (pyContains "connection" (pyLower errMsg) = false →
      classify_api_error eval_provider errMsg
        = "Invalid " ++ (if eval_provider = "Claude" then "Claude" else "OpenAI")
          ++ " API key. Please check your API key.") := by
  refine ⟨rfl, rfl, ?_, ?_⟩
  · intro k hk
    have hmet : (evaluate_response metrics eval_provider (.raised errMsg)).objGet "metrics"
        = some (zero_metrics (metrics.map Prod.fst)
            ("Evaluation error: " ++ classify_api_error eval_provider errMsg)) := rfl
    have hentry : result_metric_entry
        (evaluate_response metrics eval_provider (.raised errMsg)) k
        = some (.obj [("score", .num 0),
            ("explanation",
              .str ("Evaluation error: " ++ classify_api_error eval_provider errMsg))]) := by
      rw [result_metric_entry, hmet]
      simp only [Option.bind_some, zero_metrics, Json.objGet]
      exact lookup_map_self _ _ k hk
    refine ⟨?_, ?_, pyContains_append_left _ _⟩
    · rw [result_metric_score, hentry]
      rfl
    · rw [result_metric_explanation, hentry]
      rfl
  · intro hconn
    rcases hauth with h | h <;>
      simp [classify_api_error, hconn, h]

/-- Witness for C5: a concrete unauthorized invocation failure with a
one-metric rubric. -/
theorem c5_auth_error_zero_result_witness :
    evaluate_response [("a", { name := "A", description := "d" })] "Claude"
        (.raised "401 Unauthorized")
      = evaluation_error_result ["a"] (classify_api_error "Claude" "401 Unauthorized") ∧
    result_metric_score
        (evaluate_response [("a", { name := "A", description := "d" })] "Claude"
          (.raised "401 Unauthorized")) "a"
      = some (.num 0) ∧
    classify_api_error "Claude" "401 Unauthorized"
      = "Invalid Claude API key. Please check your API key." := by
  have h := c5_auth_error_zero_result [("a", { name := "A", description := "d" })]
    "Claude" "401 Unauthorized" (Or.inr (by decide))
  exact ⟨h.1, (h.2.2.1 "a" (by decide)).1, by simpa using h.2.2.2 (by decide)⟩

/-- C10: a judge reply that decodes to a JSON object with no "metrics" key
at all makes the schema-completion step itself raise (KeyError when
writing into the missing metrics mapping), so with a non-empty rubric
evaluate_response returns the hard-failure result: overall_score 0 and
every rubric metric scored 0, not the neutral score-5 defaults. -/
theorem c10_missing_metrics_hard_failure (eval_provider reply : String)
    (kvs : List (String × Json)) (k0 : String) (d0 : MetricDef)
    (rest : List (String × MetricDef))
    (hx : extract_evaluation_dict reply = .obj kvs)
    (hno : List.lookup "metrics" kvs = none) :
    evaluate_response ((k0, d0) :: rest) eval_provider (.reply reply)
      = parse_error_result (((k0, d0) :: rest).map Prod.fst) (.keyError "metrics") ∧
    (evaluate_response ((k0, d0) :: rest) eval_provider (.reply reply)).objGet
        "overall_score" = some (.num 0) ∧
    ∀ k ∈ ((k0, d0) :: rest).map Prod.fst,
      result_metric_score
          (evaluate_response ((k0, d0) :: rest) eval_provider (.reply reply)) k
        = some (.num 0) := by
  have hstep : ensure_metric_step (.obj kvs) k0 = .error (.keyError "metrics") := by
    simp [ensure_metric_step, pyDictGet, hno, pyInOp, pySetMetricItem, Bind.bind,
      Except.bind]
  have hproc : process_evaluation (k0 :: rest.map Prod.fst) reply
      = .error (.keyError "metrics") := by
    simp [process_evaluation, hx, ensure_metrics, List.foldlM_cons,
      hstep, Bind.bind, Except.bind]
  have hres : evaluate_response ((k0, d0) :: rest) eval_provider (.reply reply)
      = parse_error_result (((k0, d0) :: rest).map Prod.fst) (.keyError "metrics") := by
    simp [evaluate_response, List.map_cons, hproc]
  refine ⟨hres, ?_, ?_⟩
  · rw [hres]
    rfl
  · intro k hk
    have hmet : (parse_error_result (((k0, d0) :: rest).map Prod.fst)
        (.keyError "metrics")).objGet "metrics"
        = some (zero_metrics (((k0, d0) :: rest).map Prod.fst)
            ("Parse error: " ++ PyErr.text (.keyError "metrics"))) := rfl
    have hentry : result_metric_entry
        (evaluate_response ((k0, d0) :: rest) eval_provider (.reply reply)) k
        = some (.obj [("score", .num 0),
            ("explanation",
              .str ("Parse error: " ++ PyErr.text (.keyError "metrics")))]) := by
      rw [result_metric_entry, hres, hmet]
      simp only [Option.bind_some, zero_metrics, Json.objGet]
      exact lookup_map_self _ _ k hk
    rw [result_metric_score, hentry]
    rfl

/-- Witness for C10: reply decoding to an object holding only
overall_score, rubric of one metric. -/
theorem c10_missing_metrics_hard_failure_witness :
    evaluate_response [("a", { name := "A", description := "d" })] "Claude"
        (.reply "\x7b\"overall_score\": 9\x7d")
      = parse_error_result ["a"] (.keyError "metrics") ∧
    result_metric_score
        (evaluate_response [("a", { name := "A", description := "d" })] "Claude"
          (.reply "\x7b\"overall_score\": 9\x7d")) "a"
      = some (.num 0) := by
  have h := c10_missing_metrics_hard_failure "Claude" "\x7b\"overall_score\": 9\x7d"
    [("overall_score", Json.num 9)] "a" { name := "A", description := "d" } []
    (by rfl) (by rfl)
  exact ⟨h.1, h.2.2 "a" (by decide)⟩

/-- C1 counterexample: the schema-completion loop only adds missing rubric
ids and never removes judge-supplied extras, so for rubric {a} and a judge
reply whose metrics mapping holds only the id zzz, the result's metrics
key set is {zzz, a}, not {a}: an id outside the rubric appears. -/
theorem c1_counterexample :
    (evaluate_response [("a", { name := "A", description := "d" })] "Claude"
        (.reply "\x7b\"metrics\": \x7b\"zzz\": \x7b\"score\": 1, \"explanation\": \"e\"\x7d\x7d\x7d")).objGet
        "metrics"
      = some (.obj [("zzz", .obj [("score", .num 1), ("explanation", .str "e")]),
                    ("a", default_metric_entry)]) ∧
    ("zzz" ∈ Json.objKeys
        (.obj [("zzz", Json.obj [("score", Json.num 1), ("explanation", Json.str "e")]),
               ("a", default_metric_entry)]) ∧
      "zzz" ∉ ["a"]) := by
  exact ⟨by rfl, by decide, by decide⟩

/-- C1 amended: on every outcome (invocation error, hard parse failure, or
successful recovery), whenever the result's metrics field is a JSON
object, it contains every rubric id; ids outside the rubric supplied by
the judge are retained, so the key set can be a strict superset of the
rubric's ids. -/
theorem c1_rubric_ids_present (metrics : List (String × MetricDef)) (eval_provider : String)
    (outcome : InvokeOutcome) (k : String) (hk : k ∈ metrics.map Prod.fst)
    (m : List (String × Json))
    (hm : (evaluate_response metrics eval_provider outcome).objGet "metrics"
      = some (.obj m)) :
    (List.lookup k m).isSome = true := by
  cases outcome with
  | raised errMsg =>
    have hget : (evaluate_response metrics eval_provider (.raised errMsg)).objGet "metrics"
        = some (zero_metrics (metrics.map Prod.fst)
            ("Evaluation error: " ++ classify_api_error eval_provider errMsg)) := rfl
    rw [hget] at hm
    have h2 := Option.some.inj hm
    rw [zero_metrics] at h2
    have h3 : m = (metrics.map Prod.fst).map (fun k =>
        (k, Json.obj [("score", Json.num 0),
          ("explanation",
            Json.str ("Evaluation error: " ++ classify_api_error eval_provider errMsg))])) :=
      (Json.obj.inj h2).symm
    rw [h3, lookup_map_self _ _ k hk]
    rfl
  | reply content =>
    cases hproc : process_evaluation (metrics.map Prod.fst) content with
    | error e =>
      have hres : evaluate_response metrics eval_provider (.reply content)
          = parse_error_result (metrics.map Prod.fst) e := by
        simp [evaluate_response, hproc]
      rw [hres] at hm
      have hget : (parse_error_result (metrics.map Prod.fst) e).objGet "metrics"
          = some (zero_metrics (metrics.map Prod.fst) ("Parse error: " ++ e.text)) := rfl
      rw [hget] at hm
      have h2 := Option.some.inj hm
      rw [zero_metrics] at h2
      have h3 : m = (metrics.map Prod.fst).map (fun k =>
          (k, Json.obj [("score", Json.num 0),
            ("explanation", Json.str ("Parse error: " ++ e.text))])) :=
        (Json.obj.inj h2).symm
      rw [h3, lookup_map_self _ _ k hk]
      rfl
    | ok d =>
      have hres : evaluate_response metrics eval_provider (.reply content) = d := by
        simp [evaluate_response, hproc]
      rw [hres] at hm
      simp only [process_evaluation, Bind.bind] at hproc
      cases h1 : ensure_metrics (metrics.map Prod.fst) (extract_evaluation_dict content) with
      | error e => rw [h1] at hproc; simp [Except.bind] at hproc
      | ok d1 =>
        rw [h1] at hproc
        simp only [Except.bind] at hproc
        cases h2 : ensure_overall d1 with
        | error e => rw [h2] at hproc; simp [Except.bind] at hproc
        | ok d2 =>
          rw [h2] at hproc
          simp only [Except.bind] at hproc
          cases h3 : ensure_field d2 "summary" "Evaluation completed with parsing issues" with
          | error e => rw [h3] at hproc; simp [Except.bind] at hproc
          | ok d3 =>
            rw [h3] at hproc
            simp only [Except.bind] at hproc
            have hm3 : d3.objGet "metrics" = some (.obj m) := by
              rw [← ensure_field_ok_objGet d3 d "recommendations"
                "Review the raw response for complete details" "metrics" hproc
                (by decide)]
              exact hm
            have hm2 : d2.objGet "metrics" = some (.obj m) := by
              rw [← ensure_field_ok_objGet d2 d3 "summary"
                "Evaluation completed with parsing issues" "metrics" h3 (by decide)]
              exact hm3
            have hm1 : d1.objGet "metrics" = some (.obj m) := by
              rw [← ensure_overall_ok_objGet d1 d2 "metrics" h2 (by decide)]
              exact hm2
            exact ensure_metrics_establishes (metrics.map Prod.fst) _ d1 k h1 hk m hm1

/-- Witness for the amended C1 at the counterexample's input: the rubric
id a is present in the superset metrics mapping. -/
theorem c1_rubric_ids_present_witness :
    (List.lookup "a"
        [("zzz", Json.obj [("score", Json.num 1), ("explanation", Json.str "e")]),
         ("a", default_metric_entry)]).isSome = true :=
  c1_rubric_ids_present [("a", { name := "A", description := "d" })] "Claude"
    (.reply "\x7b\"metrics\": \x7b\"zzz\": \x7b\"score\": 1, \"explanation\": \"e\"\x7d\x7d\x7d")
    "a" (by decide)
    [("zzz", Json.obj [("score", Json.num 1), ("explanation", Json.str "e")]),
     ("a", default_metric_entry)]
    (by rfl)

/-- C4: when every extraction strategy fails (the pattern cascade and the
whole-reply decode), evaluate_response returns the soft-failure result:
overall_score 5, every rubric metric present with the neutral default
score 5, the parse-failure summary, and recommendations holding the first
500 characters of the raw reply. -/
theorem c4_soft_failure (metrics : List (String × MetricDef)) (eval_provider reply : String)
    (hpat : extract_by_patterns reply = none)
    (hwhole : json_loads (pyStrip reply) = none) :
    evaluate_response metrics eval_provider (.reply reply)
      = .obj [("overall_score", .num 5),
              ("metrics", .obj (completeKeys (metrics.map Prod.fst) [])),
              ("summary", .str "Failed to parse complete evaluation"),
              ("recommendations",
                .str ("Raw response (first 500 chars): " ++ pyTake 500 reply))] ∧
    (∀ k ∈ metrics.map Prod.fst,
      result_metric_entry (evaluate_response metrics eval_provider (.reply reply)) k
        = some default_metric_entry) ∧
    pyContains (pyTake 500 reply)
      ("Raw response (first 500 chars): " ++ pyTake 500 reply) = true := by
  have hx : extract_evaluation_dict reply = default_evaluation_dict reply := by
    simp [extract_evaluation_dict, hpat, whole_reply_or_default, hwhole]
  have h1 : ensure_metrics (metrics.map Prod.fst) (default_evaluation_dict reply)
      = .ok (.obj [("overall_score", .num 5),
          ("metrics", .obj (completeKeys (metrics.map Prod.fst) [])),
          ("summary", .str "Failed to parse complete evaluation"),
          ("recommendations",
            .str ("Raw response (first 500 chars): " ++ pyTake 500 reply))]) := by
    have := ensure_metrics_obj (metrics.map Prod.fst)
      [("overall_score", Json.num 5), ("metrics", Json.obj []),
       ("summary", Json.str "Failed to parse complete evaluation"),
       ("recommendations",
         Json.str ("Raw response (first 500 chars): " ++ pyTake 500 reply))]
      [] (by rfl)
    exact this
  have h2 : ensure_overall (Json.obj [("overall_score", Json.num 5),
      ("metrics", Json.obj (completeKeys (metrics.map Prod.fst) [])),
      ("summary", Json.str "Failed to parse complete evaluation"),
      ("recommendations",
        Json.str ("Raw response (first 500 chars): " ++ pyTake 500 reply))])
      = .ok (.obj [("overall_score", Json.num 5),
          ("metrics", Json.obj (completeKeys (metrics.map Prod.fst) [])),
          ("summary", Json.str "Failed to parse complete evaluation"),
          ("recommendations",
            Json.str ("Raw response (first 500 chars): " ++ pyTake 500 reply))]) :=
    ensure_overall_present _ (by rfl)
  have h3 := ensure_field_present
    [("overall_score", Json.num 5),
     ("metrics", Json.obj (completeKeys (metrics.map Prod.fst) [])),
     ("summary", Json.str "Failed to parse complete evaluation"),
     ("recommendations",
       Json.str ("Raw response (first 500 chars): " ++ pyTake 500 reply))]
    "summary" "Evaluation completed with parsing issues" (by rfl)
  have h4 := ensure_field_present
    [("overall_score", Json.num 5),
     ("metrics", Json.obj (completeKeys (metrics.map Prod.fst) [])),
     ("summary", Json.str "Failed to parse complete evaluation"),
     ("recommendations",
       Json.str ("Raw response (first 500 chars): " ++ pyTake 500 reply))]
    "recommendations" "Review the raw response for complete details" (by rfl)
  have hproc : process_evaluation (metrics.map Prod.fst) reply
      = .ok (.obj [("overall_score", Json.num 5),
          ("metrics", Json.obj (completeKeys (metrics.map Prod.fst) [])),
          ("summary", Json.str "Failed to parse complete evaluation"),
          ("recommendations",
            Json.str ("Raw response (first 500 chars): " ++ pyTake 500 reply))]) := by
    simp only [process_evaluation, Bind.bind, hx, h1, Except.bind, h2, h3, h4]
  have hres : evaluate_response metrics eval_provider (.reply reply)
      = .obj [("overall_score", Json.num 5),
          ("metrics", Json.obj (completeKeys (metrics.map Prod.fst) [])),
          ("summary", Json.str "Failed to parse complete evaluation"),
          ("recommendations",
            Json.str ("Raw response (first 500 chars): " ++ pyTake 500 reply))] := by
    simp [evaluate_response, hproc]
  refine ⟨hres, ?_, pyContains_append_left _ _⟩
  intro k hk
  have hsome := completeKeys_mem_isSome (metrics.map Prod.fst) [] k hk
  obtain ⟨v, hv⟩ := Option.isSome_iff_exists.mp hsome
  have hvdef : v = default_metric_entry := by
    have hmem := lookup_mem_snd _ k v hv
    obtain ⟨kv, hkv, hsnd⟩ := List.mem_map.mp hmem
    rw [← hsnd]
    exact completeKeys_values (metrics.map Prod.fst) [] (by simp) kv hkv
  rw [result_metric_entry, hres]
  show List.lookup k (completeKeys (metrics.map Prod.fst) []) = some default_metric_entry
  rw [hv, hvdef]

/-- Witness for C4: free prose with no braces, one-metric rubric. -/
theorem c4_soft_failure_witness :
    evaluate_response [("a", { name := "A", description := "d" })] "Claude"
        (.reply "free prose with no json at all")
      = .obj [("overall_score", .num 5),
              ("metrics", .obj [("a", default_metric_entry)]),
              ("summary", .str "Failed to parse complete evaluation"),
              ("recommendations",
                .str "Raw response (first 500 chars): free prose with no json at all")] ∧
    result_metric_entry
        (evaluate_response [("a", { name := "A", description := "d" })] "Claude"
          (.reply "free prose with no json at all")) "a"
      = some default_metric_entry := by
  have h := c4_soft_failure [("a", { name := "A", description := "d" })] "Claude"
    "free prose with no json at all" (by rfl) (by rfl)
  exact ⟨h.1, h.2.1 "a" (by decide)⟩

/-- C3: when the parsed judge JSON is an object with a dict-valued metrics
slot, no overall_score, and (after schema completion) well-formed numeric
scores, the returned overall_score is the unweighted arithmetic mean of
all metric scores after completion (5 when no scores exist), and the
returned metrics mapping is exactly the completed one. -/
theorem c3_mean_overall (metrics : List (String × MetricDef)) (eval_provider reply : String)
    (kvs m : List (String × Json))
    (hx : extract_evaluation_dict reply = .obj kvs)
    (hmet : List.lookup "metrics" kvs = some (.obj m))
    (hov : List.lookup "overall_score" kvs = none)
    (hok : ∀ kv ∈ completeKeys (metrics.map Prod.fst) m, entry_score_ok kv.2 = true) :
    (evaluate_response metrics eval_provider (.reply reply)).objGet "metrics"
      = some (.obj (completeKeys (metrics.map Prod.fst) m)) ∧
    (evaluate_response metrics eval_provider (.reply reply)).objGet "overall_score"
      = some (.num (spec_mean_score (completeKeys (metrics.map Prod.fst) m))) := by
  have h1 := ensure_metrics_obj (metrics.map Prod.fst) kvs m hmet
  have hcm1 : List.lookup "metrics"
      (assocSet kvs "metrics" (.obj (completeKeys (metrics.map Prod.fst) m)))
      = some (.obj (completeKeys (metrics.map Prod.fst) m)) :=
    lookup_assocSet_self _ _ _
  have hov1 : List.lookup "overall_score"
      (assocSet kvs "metrics" (.obj (completeKeys (metrics.map Prod.fst) m)))
      = none := by
    rw [lookup_assocSet, if_neg (by decide)]
    exact hov
  have h2 := ensure_overall_absent
    (assocSet kvs "metrics" (.obj (completeKeys (metrics.map Prod.fst) m)))
    (completeKeys (metrics.map Prod.fst) m) hov1 hcm1 hok
  obtain ⟨kvs3, h3, hp3⟩ := ensure_field_obj2
    (assocSet (assocSet kvs "metrics" (.obj (completeKeys (metrics.map Prod.fst) m)))
      "overall_score" (.num (spec_mean_score (completeKeys (metrics.map Prod.fst) m))))
    "summary" "Evaluation completed with parsing issues"
  obtain ⟨kvs4, h4, hp4⟩ := ensure_field_obj2 kvs3
    "recommendations" "Review the raw response for complete details"
  have hproc : process_evaluation (metrics.map Prod.fst) reply = .ok (.obj kvs4) := by
    simp only [process_evaluation, Bind.bind, hx, h1, Except.bind, h2, h3, h4]
  have hres : evaluate_response metrics eval_provider (.reply reply) = .obj kvs4 := by
    simp [evaluate_response, hproc]
  have hm4 : List.lookup "metrics" kvs4
      = some (.obj (completeKeys (metrics.map Prod.fst) m)) := by
    rw [hp4 "metrics" (by decide), hp3 "metrics" (by decide),
      lookup_assocSet, if_neg (by decide)]
    exact hcm1
  have ho4 : List.lookup "overall_score" kvs4
      = some (.num (spec_mean_score (completeKeys (metrics.map Prod.fst) m))) := by
    rw [hp4 "overall_score" (by decide), hp3 "overall_score" (by decide),
      lookup_assocSet_self]
  exact ⟨by rw [hres]; exact hm4, by rw [hres]; exact ho4⟩

/-- Witness for C3 at the spec's concrete example: rubric {a, b, c}, judge
scores a=9 and b=7, no overall_score; c is filled with the neutral default
and the overall score is (9+7+5)/3 = 7. -/
theorem c3_mean_overall_witness :
    (evaluate_response
        [("a", { name := "A", description := "da" }),
         ("b", { name := "B", description := "db" }),
         ("c", { name := "C", description := "dc" })] "Claude"
        (.reply "\x7b\"metrics\": \x7b\"a\": \x7b\"score\": 9, \"explanation\": \"x\"\x7d, \"b\": \x7b\"score\": 7, \"explanation\": \"y\"\x7d\x7d\x7d")).objGet
        "metrics"
      = some (.obj
          [("a", .obj [("score", .num 9), ("explanation", .str "x")]),
           ("b", .obj [("score", .num 7), ("explanation", .str "y")]),
           ("c", default_metric_entry)]) ∧
    (evaluate_response
        [("a", { name := "A", description := "da" }),
         ("b", { name := "B", description := "db" }),
         ("c", { name := "C", description := "dc" })] "Claude"
        (.reply "\x7b\"metrics\": \x7b\"a\": \x7b\"score\": 9, \"explanation\": \"x\"\x7d, \"b\": \x7b\"score\": 7, \"explanation\": \"y\"\x7d\x7d\x7d")).objGet
        "overall_score"
      = some (.num 7) := by
  have h := c3_mean_overall
    [("a", { name := "A", description := "da" }),
     ("b", { name := "B", description := "db" }),
     ("c", { name := "C", description := "dc" })] "Claude"
    "\x7b\"metrics\": \x7b\"a\": \x7b\"score\": 9, \"explanation\": \"x\"\x7d, \"b\": \x7b\"score\": 7, \"explanation\": \"y\"\x7d\x7d\x7d"
    [("metrics", Json.obj
        [("a", Json.obj [("score", Json.num 9), ("explanation", Json.str "x")]),
         ("b", Json.obj [("score", Json.num 7), ("explanation", Json.str "y")])])]
    [("a", Json.obj [("score", Json.num 9), ("explanation", Json.str "x")]),
     ("b", Json.obj [("score", Json.num 7), ("explanation", Json.str "y")])]
    (by rfl) (by rfl) (by rfl) (by decide)
  exact ⟨h.1, h.2⟩
